import Mathlib

/-!
Verification development for the ChatItNow matchmaking server
(`src/server.js` and the sibling revisions under `src/unnamed/`).

The server runs on a single-threaded JavaScript event loop: every event
handler and every timer callback runs to completion before the next one
starts.  We therefore embed each handler body as a pure function on an
explicit server state; a scheduled timeout is a datum recording when it
fires and which callback body it will run.  Server-to-client emissions are
accumulated in an append-only event log.

Three revisions of the server are embedded:
* `V1`       — `src/server.js`, first (current) revision: hard reset, two
               timed matching phases, match locks, stale-disconnect guard.
* `Buffered` — `src/unnamed/part_002`, first revision: adds
               `partnerSessionID` links and a `messageQueue` buffer that is
               flushed on reconnect.
* `Eager`    — `src/unnamed/part_000`: an earlier revision that attempts a
               priority match synchronously inside the `find_partner`
               handler and only defers the `executeMatch` call.
-/

namespace ChatItNow

/-- The `userData` payload submitted with `find_partner`: `{username, field}`. -/
structure UserData where
  username : String
  field : String
deriving Repr, DecidableEq

/-- JS `userData.username || 'Stranger'` on an optional `socket.userData`
(the empty string is falsy in JS, hence also defaults). -/
def nameOr (u : Option UserData) : String :=
  match u with
  | some d => if d.username = "" then "Stranger" else d.username
  | none => "Stranger"

/-- JS `userData.field || ''` on an optional `socket.userData`. -/
def fieldOr (u : Option UserData) : String :=
  match u with
  | some d => d.field
  | none => ""

/-- A `waitingQueue` entry as built by `find_partner`
(`src/server.js` lines 206-213): the socket reference is kept as the
socket id. -/
structure Entry where
  sessionID : String
  socketRef : Nat
  userData : UserData
  openToAny : Bool
  isMatched : Bool
  joinedAt : Nat
deriving Repr, DecidableEq

/-- `Array.prototype.find` together with the position of the hit:
first element satisfying `p`, with its index (counting from `n`). -/
def findWithIdx {α : Type} : List α → (α → Bool) → Nat → Option (Nat × α)
  | [], _, _ => none
  | u :: rest, p, n => if p u then some (n, u) else findWithIdx rest p (n + 1)

/-- In-place mutation of the element at index `i` (JS aliasing: mutating the
object returned by `find` mutates the array element). -/
def setAt {α : Type} : List α → Nat → (α → α) → List α
  | [], _, _ => []
  | u :: rest, 0, f => f u :: rest
  | u :: rest, n + 1, f => u :: setAt rest n f

/-- In-place mutation of the first element satisfying `p`, if any. -/
def updateFirst {α : Type} : List α → (α → Bool) → (α → α) → List α
  | [], _, _ => []
  | u :: rest, p, f => if p u then f u :: rest else u :: updateFirst rest p f

namespace V1

/-- A live socket.io socket as the server uses it: its id, the session
that owns it (`socket.sessionID`), and the fields the server stores on the
socket object. -/
structure Socket where
  id : Nat
  sessionID : String
  userData : Option UserData
  roomID : Option String
deriving Repr, DecidableEq

/-- A `sessionMap` value: `{ socketId, roomID, userData, timer }`.
`timer` records whether a grace-timeout handle is currently stored. -/
structure Session where
  socketId : Option Nat
  roomID : Option String
  userData : Option UserData
  timer : Bool
deriving Repr, DecidableEq

/-- The callback body a pending timeout will run. -/
inductive TimerKind where
  | phase1 (sessionID capturedField : String)
  | phase2 (sessionID capturedField : String)
  | grace (sessionID : String)
deriving Repr, DecidableEq

/-- A pending timeout: when it fires and what it runs. -/
structure Timer where
  fireAt : Nat
  kind : TimerKind
deriving Repr, DecidableEq

/-- A server-to-client emission.  Room-targeted events carry the room and,
for `socket.to(room)`, the sender socket that is excluded from delivery. -/
inductive Event where
  | matched (toSession : String) (toSocket : Nat) (pname pfield roomID : String)
  | partnerDisconnected (roomID : String)
  | partnerReconnecting (roomID : String) (exceptSocket : Nat)
  | partnerConnected (roomID : String) (exceptSocket : Nat)
  | sessionRestored (toSocket : Nat)
  | receiveMessage (roomID : String) (exceptSocket : Nat) (text : String)
deriving Repr, DecidableEq

/-- The whole mutable server state of `src/server.js`:
`waitingQueue`, `sessionMap`, the socket registry, socket.io room
membership, pending timeouts, the clock, and the emission log. -/
structure ServerState where
  waitingQueue : List Entry
  sessionMap : List (String × Session)
  sockets : List Socket
  rooms : List (String × List Nat)
  timers : List Timer
  now : Nat
  emitted : List Event
deriving Repr, DecidableEq

/-- `PHASE_1_DELAY = 3000` (`src/server.js` line 22). -/
def PHASE_1_DELAY : Nat := 3000

/-- `PHASE_2_DELAY = 2000` (`src/server.js` line 23). -/
def PHASE_2_DELAY : Nat := 2000

/-- `RECONNECT_GRACE_PERIOD = 3 * 60 * 1000` (`src/server.js` line 19). -/
def RECONNECT_GRACE_PERIOD : Nat := 3 * 60 * 1000

/-- `removeFromQueue` (`src/server.js` lines 44-46). -/
def removeFromQueue (q : List Entry) (sessionID : String) : List Entry :=
  q.filter (fun u => u.sessionID != sessionID)

/-- `sessionMap.get(sessionID)`. -/
def lookupSession (st : ServerState) (sessionID : String) : Option Session :=
  (st.sessionMap.find? (fun p => p.1 == sessionID)).map (·.2)

/-- Mutation of the `sessionMap` entry for `sessionID` (JS object aliasing). -/
def setSession (st : ServerState) (sessionID : String) (f : Session → Session) :
    ServerState :=
  { st with sessionMap :=
      st.sessionMap.map (fun p => if p.1 == sessionID then (p.1, f p.2) else p) }

/-- Mutation of the fields stored on a live socket object. -/
def setSocket (st : ServerState) (sockId : Nat) (f : Socket → Socket) : ServerState :=
  { st with sockets := st.sockets.map (fun k => if k.id == sockId then f k else k) }

/-- The members of a socket.io room (empty when the room does not exist). -/
def roomMembers (st : ServerState) (roomID : String) : List Nat :=
  ((st.rooms.find? (fun p => p.1 == roomID)).map (·.2)).getD []

/-- `socket.join(roomID)`. -/
def joinRoom (st : ServerState) (sockId : Nat) (roomID : String) : ServerState :=
  if (st.rooms.find? (fun p => p.1 == roomID)).isSome then
    { st with rooms := st.rooms.map (fun p =>
        if p.1 == roomID then
          (p.1, if p.2.contains sockId then p.2 else p.2 ++ [sockId])
        else p) }
  else
    { st with rooms := st.rooms ++ [(roomID, [sockId])] }

/-- `socket.leave(roomID)`. -/
def leaveRoom (st : ServerState) (sockId : Nat) (roomID : String) : ServerState :=
  { st with rooms := st.rooms.map (fun p =>
      if p.1 == roomID then (p.1, p.2.filter (fun m => m != sockId)) else p) }

/-- `io.in(roomID).socketsLeave(roomID)`: every member leaves, the room is gone. -/
def dropRoom (st : ServerState) (roomID : String) : ServerState :=
  { st with rooms := st.rooms.filter (fun p => p.1 != roomID) }

/-- `clearTimeout(session.timer)` for the grace timeout of `sessionID`. -/
def clearGrace (st : ServerState) (sessionID : String) : ServerState :=
  { st with timers := st.timers.filter (fun t => t.kind != TimerKind.grace sessionID) }

/-- `getSocketFromSession` (`src/server.js` lines 48-52). -/
def getSocketFromSession (st : ServerState) (sessionID : String) : Option Socket :=
  match lookupSession st sessionID with
  | none => none
  | some session =>
    match session.socketId with
    | none => none
    | some i => st.sockets.find? (fun k => k.id == i)

/-- Setting an entry's match lock (`entry.isMatched = true`). -/
def lockEntry (u : Entry) : Entry := { u with isMatched := true }

/-- `entry.isMatched = false` on the first queue entry of a session, as in
the abort branch of `executeMatch`. -/
def unlockFirst (q : List Entry) (sessionID : String) : List Entry :=
  updateFirst q (fun u => u.sessionID == sessionID) (fun u => { u with isMatched := false })

/-- `executeMatch` (`src/server.js` lines 71-116).  Resolves both sessions'
current sockets; aborts — resetting the lock of any side that still has a
live socket — when either is gone; otherwise creates the room, updates
both sockets and sessions, removes both queue entries and emits the two
`matched` notifications. -/
def executeMatch (st : ServerState) (sessionID1 sessionID2 : String) : ServerState :=
  match getSocketFromSession st sessionID1, getSocketFromSession st sessionID2 with
  | some socket1, some socket2 =>
    let roomID := toString socket1.id ++ "#" ++ toString socket2.id
    let st := joinRoom st socket1.id roomID
    let st := joinRoom st socket2.id roomID
    let st := setSocket st socket1.id (fun k => { k with roomID := some roomID })
    let st := setSocket st socket2.id (fun k => { k with roomID := some roomID })
    let st := setSession st sessionID1 (fun s => { s with roomID := some roomID })
    let st := setSession st sessionID2 (fun s => { s with roomID := some roomID })
    let q := removeFromQueue (removeFromQueue st.waitingQueue sessionID1) sessionID2
    let st := { st with waitingQueue := q }
    let evs := [ Event.matched sessionID1 socket1.id
                  (nameOr socket2.userData) (fieldOr socket2.userData) roomID,
                 Event.matched sessionID2 socket2.id
                  (nameOr socket1.userData) (fieldOr socket1.userData) roomID ]
    { st with emitted := st.emitted ++ evs }
  | some _, none => { st with waitingQueue := unlockFirst st.waitingQueue sessionID1 }
  | none, some _ => { st with waitingQueue := unlockFirst st.waitingQueue sessionID2 }
  | none, none => st

/-- `cleanupSession` (`src/server.js` lines 54-69). -/
def cleanupSession (st : ServerState) (sessionID : String) : ServerState :=
  match lookupSession st sessionID with
  | none => st
  | some session =>
    let st := if session.timer then clearGrace st sessionID else st
    let st := match session.roomID with
      | some roomID =>
        dropRoom { st with emitted := st.emitted ++ [Event.partnerDisconnected roomID] }
          roomID
      | none => st
    let st := { st with waitingQueue := removeFromQueue st.waitingQueue sessionID }
    { st with sessionMap := st.sessionMap.filter (fun p => p.1 != sessionID) }

/-- The connection handler body after the session-token check
(`src/server.js` lines 138-180), for a fresh socket `sockId` presenting
`sessionID`: registers the socket, then either restores an existing
session (rebind socket id, cancel a pending grace timeout, rejoin the
room / refresh the queue entry's socket reference) or creates a new one. -/
def connectHandler (st : ServerState) (sockId : Nat) (sessionID : String) : ServerState :=
  let st := { st with sockets := st.sockets ++ [⟨sockId, sessionID, none, none⟩] }
  match lookupSession st sessionID with
  | some session =>
    let st := setSession st sessionID (fun s => { s with socketId := some sockId })
    let st := setSocket st sockId
      (fun k => { k with userData := session.userData, roomID := session.roomID })
    let st := if session.timer then
        setSession (clearGrace st sessionID) sessionID (fun s => { s with timer := false })
      else st
    match session.roomID with
    | some roomID =>
      let st := joinRoom st sockId roomID
      let evs := [Event.partnerConnected roomID sockId, Event.sessionRestored sockId]
      { st with emitted := st.emitted ++ evs }
    | none =>
      let q := updateFirst st.waitingQueue (fun u => u.sessionID == sessionID)
        (fun u => { u with socketRef := sockId })
      { st with waitingQueue := q }
  | none =>
    let fresh := Session.mk (some sockId) none none false
    { st with sessionMap := st.sessionMap ++ [(sessionID, fresh)] }

/-- The synchronous part of the `find_partner` handler
(`src/server.js` lines 187-217 and 267): store the profile, hard-reset any
previous room, re-insert a fresh unlocked queue entry, and schedule the
phase-1 timer `PHASE_1_DELAY` from now.  No matching happens here. -/
def findPartner (st : ServerState) (sockId : Nat) (sessionID : String)
    (userData : UserData) : ServerState :=
  let st := setSocket st sockId (fun k => { k with userData := some userData })
  let st := match lookupSession st sessionID with
    | some session =>
      let st := setSession st sessionID (fun s => { s with userData := some userData })
      match session.roomID with
      | some roomID =>
        setSession (leaveRoom st sockId roomID) sessionID (fun s => { s with roomID := none })
      | none => st
    | none => st
  let st := { st with waitingQueue := removeFromQueue st.waitingQueue sessionID }
  let myEntry : Entry := Entry.mk sessionID sockId userData false false st.now
  let st := { st with waitingQueue := st.waitingQueue ++ [myEntry] }
  let t := Timer.mk (st.now + PHASE_1_DELAY) (TimerKind.phase1 sessionID userData.field)
  { st with timers := st.timers ++ [t] }

/-- The phase-1 timer body (`src/server.js` lines 219-267): re-validate the
entry, and for a non-generic captured field look for the first unmatched
exact-field candidate; on a hit lock both entries and run `executeMatch`,
otherwise schedule the phase-2 timer. -/
def phase1Scan (st : ServerState) (sessionID capturedField : String) : ServerState :=
  match findWithIdx st.waitingQueue (fun u => u.sessionID == sessionID) 0 with
  | none => st
  | some (i, currentEntry) =>
    if currentEntry.isMatched then st
    else
      let isGenericField := capturedField == "" || capturedField == "Others"
      let exact? := if isGenericField then none else
        findWithIdx st.waitingQueue (fun u =>
          u.sessionID != sessionID && !u.isMatched &&
          (u.userData.field == capturedField &&
           u.userData.field != "" && u.userData.field != "Others")) 0
      match exact? with
      | some (j, exactMatch) =>
        executeMatch
          { st with waitingQueue := setAt (setAt st.waitingQueue i lockEntry) j lockEntry }
          sessionID exactMatch.sessionID
      | none =>
        let t := Timer.mk (st.now + PHASE_2_DELAY) (TimerKind.phase2 sessionID capturedField)
        { st with timers := st.timers ++ [t] }

/-- The phase-2 timer body (`src/server.js` lines 243-265): re-validate the
entry, mark it `openToAny`, then take the first unmatched candidate that is
itself `openToAny` or has the captured field; on a hit lock both entries
and run `executeMatch`. -/
def phase2Scan (st : ServerState) (sessionID capturedField : String) : ServerState :=
  match findWithIdx st.waitingQueue (fun u => u.sessionID == sessionID) 0 with
  | none => st
  | some (i, reCheckEntry) =>
    if reCheckEntry.isMatched then st
    else
      let q0 := setAt st.waitingQueue i (fun u => { u with openToAny := true })
      match findWithIdx q0 (fun u =>
          u.sessionID != sessionID && !u.isMatched &&
          (u.openToAny || u.userData.field == capturedField)) 0 with
      | some (j, anyMatch) =>
        executeMatch { st with waitingQueue := setAt (setAt q0 i lockEntry) j lockEntry }
          sessionID anyMatch.sessionID
      | none => { st with waitingQueue := q0 }

/-- The `send_message` handler (`src/server.js` lines 270-284): resolve the
room through the session store; if there is one, make sure the sender
socket is in it and emit `receive_message` to the rest of the room;
otherwise do nothing. -/
def sendMessage (st : ServerState) (sockId : Nat) (sessionID : String) (text : String) :
    ServerState :=
  let currentRoomID := match lookupSession st sessionID with
    | some session => session.roomID
    | none => none
  match currentRoomID with
  | some roomID =>
    let st := if (roomMembers st roomID).contains sockId then st
      else joinRoom st sockId roomID
    { st with emitted := st.emitted ++ [Event.receiveMessage roomID sockId text] }
  | none => st

/-- The socket `disconnect` handler (`src/server.js` lines 309-337), invoked
with the id of the socket that dropped: stale-guarded by the socket-id
comparison, then removes the queue entry and either starts the grace timer
(in a room) or deletes the session. -/
def disconnectHandler (st : ServerState) (sockId : Nat) (sessionID : String) :
    ServerState :=
  match lookupSession st sessionID with
  | none => st
  | some session =>
    if session.socketId != some sockId then st
    else
      let st := { st with waitingQueue := removeFromQueue st.waitingQueue sessionID }
      match session.roomID with
      | some roomID =>
        let st := { st with emitted := st.emitted ++ [Event.partnerReconnecting roomID sockId] }
        let t := Timer.mk (st.now + RECONNECT_GRACE_PERIOD) (TimerKind.grace sessionID)
        let st := { st with timers := st.timers ++ [t] }
        setSession st sessionID (fun s => { s with timer := true })
      | none => { st with sessionMap := st.sessionMap.filter (fun p => p.1 != sessionID) }

/-- One phase-timer callback firing: which session's search it belongs to
and the field captured by its closure. -/
inductive ScanOp where
  | p1 (sessionID capturedField : String)
  | p2 (sessionID capturedField : String)
deriving Repr, DecidableEq

/-- Run one phase-timer callback. -/
def applyScan (st : ServerState) : ScanOp → ServerState
  | ScanOp.p1 sid f => phase1Scan st sid f
  | ScanOp.p2 sid f => phase2Scan st sid f

/-- Run a sequence of phase-timer callbacks (the event loop serializes them). -/
def runScans (st : ServerState) (ops : List ScanOp) : ServerState :=
  ops.foldl applyScan st

/-- The sessions that received a `matched` notification, in emission order. -/
def matchedSessions (evs : List Event) : List String :=
  evs.filterMap (fun e => match e with
    | Event.matched toSession _ _ _ _ => some toSession
    | _ => none)

/-- The session ids present in the waiting queue. -/
def queueSessions (q : List Entry) : List String := q.map (·.sessionID)

end V1

namespace Buffered

/-- The `messageData` argument of `send_message`. -/
structure MsgIn where
  text : String
  replyTo : Option String
  timestamp : Nat
deriving Repr, DecidableEq

/-- The `receive_message` payload built by `send_message`
(`src/unnamed/part_002` lines 290-295): `type` is always `'stranger'`. -/
structure Msg where
  text : String
  mtype : String
  replyTo : Option String
  timestamp : Nat
deriving Repr, DecidableEq

/-- `msgPayload` construction from `messageData`. -/
def payloadOf (m : MsgIn) : Msg := Msg.mk m.text "stranger" m.replyTo m.timestamp

/-- A live socket of the buffered revision; `connected` mirrors
`socket.connected`. -/
structure Socket where
  id : Nat
  sessionID : String
  userData : Option UserData
  roomID : Option String
  connected : Bool
deriving Repr, DecidableEq

/-- A `sessionMap` value of the buffered revision
(`src/unnamed/part_002` lines 190-197):
`{ socketId, roomID, userData, timer, partnerSessionID, messageQueue }`. -/
structure Session where
  socketId : Option Nat
  roomID : Option String
  userData : Option UserData
  timer : Bool
  partnerSessionID : Option String
  messageQueue : List Msg
deriving Repr, DecidableEq

/-- A server-to-client emission of the buffered revision.  `receiveRoom` is
a room broadcast excluding the sender; `receiveDirect` is `socket.emit`
straight to one socket (used when flushing the buffer). -/
inductive Event where
  | matched (toSession : String) (toSocket : Nat) (pname pfield roomID : String)
  | partnerDisconnected (roomID : String) (exceptSocket : Nat)
  | partnerConnected (roomID : String) (exceptSocket : Nat)
  | partnerReconnecting (roomID : String) (exceptSocket : Nat)
  | sessionRestored (toSocket : Nat)
  | receiveRoom (roomID : String) (exceptSocket : Nat) (payload : Msg)
  | receiveDirect (toSocket : Nat) (payload : Msg)
deriving Repr, DecidableEq

/-- The mutable state of the buffered revision. -/
structure ServerState where
  waitingQueue : List Entry
  sessionMap : List (String × Session)
  sockets : List Socket
  rooms : List (String × List Nat)
  emitted : List Event
deriving Repr, DecidableEq

/-- `removeFromQueue` (`src/unnamed/part_002` lines 45-47). -/
def removeFromQueue (q : List Entry) (sessionID : String) : List Entry :=
  q.filter (fun u => u.sessionID != sessionID)

/-- `sessionMap.get(sessionID)`. -/
def lookupSession (st : ServerState) (sessionID : String) : Option Session :=
  (st.sessionMap.find? (fun p => p.1 == sessionID)).map (·.2)

/-- Mutation of the `sessionMap` entry for `sessionID`. -/
def setSession (st : ServerState) (sessionID : String) (f : Session → Session) :
    ServerState :=
  { st with sessionMap :=
      st.sessionMap.map (fun p => if p.1 == sessionID then (p.1, f p.2) else p) }

/-- Mutation of the fields stored on a live socket object. -/
def setSocket (st : ServerState) (sockId : Nat) (f : Socket → Socket) : ServerState :=
  { st with sockets := st.sockets.map (fun k => if k.id == sockId then f k else k) }

/-- The members of a socket.io room. -/
def roomMembers (st : ServerState) (roomID : String) : List Nat :=
  ((st.rooms.find? (fun p => p.1 == roomID)).map (·.2)).getD []

/-- `socket.join(roomID)`. -/
def joinRoom (st : ServerState) (sockId : Nat) (roomID : String) : ServerState :=
  if (st.rooms.find? (fun p => p.1 == roomID)).isSome then
    { st with rooms := st.rooms.map (fun p =>
        if p.1 == roomID then
          (p.1, if p.2.contains sockId then p.2 else p.2 ++ [sockId])
        else p) }
  else
    { st with rooms := st.rooms ++ [(roomID, [sockId])] }

/-- `io.in(roomID).socketsLeave(roomID)`. -/
def dropRoom (st : ServerState) (roomID : String) : ServerState :=
  { st with rooms := st.rooms.filter (fun p => p.1 != roomID) }

/-- `getSocketFromSession` (`src/unnamed/part_002` lines 49-53). -/
def getSocketFromSession (st : ServerState) (sessionID : String) : Option Socket :=
  match lookupSession st sessionID with
  | none => none
  | some session =>
    match session.socketId with
    | none => none
    | some i => st.sockets.find? (fun k => k.id == i)

/-- `entry.isMatched = false` on the first queue entry of a session. -/
def unlockFirst (q : List Entry) (sessionID : String) : List Entry :=
  updateFirst q (fun u => u.sessionID == sessionID) (fun u => { u with isMatched := false })

/-- `executeMatch` of the buffered revision (`src/unnamed/part_002`
lines 72-128): as in `V1` but additionally links `partnerSessionID` both
ways and clears both `messageQueue`s. -/
def executeMatch (st : ServerState) (sessionID1 sessionID2 : String) : ServerState :=
  match getSocketFromSession st sessionID1, getSocketFromSession st sessionID2 with
  | some socket1, some socket2 =>
    let roomID := toString socket1.id ++ "#" ++ toString socket2.id
    let st := joinRoom st socket1.id roomID
    let st := joinRoom st socket2.id roomID
    let st := setSocket st socket1.id (fun k => { k with roomID := some roomID })
    let st := setSocket st socket2.id (fun k => { k with roomID := some roomID })
    let st := setSession st sessionID1 (fun s =>
      { s with roomID := some roomID, partnerSessionID := some sessionID2, messageQueue := [] })
    let st := setSession st sessionID2 (fun s =>
      { s with roomID := some roomID, partnerSessionID := some sessionID1, messageQueue := [] })
    let q := removeFromQueue (removeFromQueue st.waitingQueue sessionID1) sessionID2
    let st := { st with waitingQueue := q }
    let evs := [ Event.matched sessionID1 socket1.id
                  (nameOr socket2.userData) (fieldOr socket2.userData) roomID,
                 Event.matched sessionID2 socket2.id
                  (nameOr socket1.userData) (fieldOr socket1.userData) roomID ]
    { st with emitted := st.emitted ++ evs }
  | some _, none => { st with waitingQueue := unlockFirst st.waitingQueue sessionID1 }
  | none, some _ => { st with waitingQueue := unlockFirst st.waitingQueue sessionID2 }
  | none, none => st

/-- The online check performed by `send_message` on the partner's session:
`partnerSession && partnerSession.socketId` resolves a socket that must be
`connected`. -/
def sessionOnline (st : ServerState) (s? : Option Session) : Bool :=
  match s? with
  | some ps =>
    match ps.socketId with
    | some pid =>
      match st.sockets.find? (fun k => k.id == pid) with
      | some psock => psock.connected
      | none => false
    | none => false
  | none => false

/-- The `send_message` handler of the buffered revision
(`src/unnamed/part_002` lines 282-318): deliver to the room when the
partner is online, append to the partner's `messageQueue` otherwise. -/
def sendMessage (st : ServerState) (sockId : Nat) (sessionID : String) (m : MsgIn) :
    ServerState :=
  match lookupSession st sessionID with
  | none => st
  | some session =>
    match session.roomID with
    | none => st
    | some roomID =>
      let msgPayload := payloadOf m
      let partnerSession? := match session.partnerSessionID with
        | some p => lookupSession st p
        | none => none
      if sessionOnline st partnerSession? then
        let st := if (roomMembers st roomID).contains sockId then st
          else joinRoom st sockId roomID
        { st with emitted := st.emitted ++ [Event.receiveRoom roomID sockId msgPayload] }
      else
        match session.partnerSessionID with
        | some p =>
          if (lookupSession st p).isSome then
            setSession st p (fun ps => { ps with messageQueue := ps.messageQueue ++ [msgPayload] })
          else st
        | none => st

/-- The connection handler of the buffered revision
(`src/unnamed/part_002` lines 142-198): on reconnect of a session that is
in a room, rebind the socket, cancel the grace timer, rejoin and notify,
then flush the message buffer in order and clear it. -/
def connectHandler (st : ServerState) (sockId : Nat) (sessionID : String) : ServerState :=
  let st := { st with sockets := st.sockets ++ [Socket.mk sockId sessionID none none true] }
  match lookupSession st sessionID with
  | some session =>
    let st := setSession st sessionID (fun s => { s with socketId := some sockId })
    let st := setSocket st sockId
      (fun k => { k with userData := session.userData, roomID := session.roomID })
    let st := if session.timer then
        setSession st sessionID (fun s => { s with timer := false })
      else st
    match session.roomID with
    | some roomID =>
      let st := joinRoom st sockId roomID
      let evs := [Event.partnerConnected roomID sockId, Event.sessionRestored sockId]
      let st := { st with emitted := st.emitted ++ evs }
      let queue := match lookupSession st sessionID with
        | some s2 => s2.messageQueue
        | none => []
      if queue.isEmpty then st
      else
        let st := { st with emitted := st.emitted ++ queue.map (fun msg => Event.receiveDirect sockId msg) }
        setSession st sessionID (fun s => { s with messageQueue := [] })
    | none =>
      let q := updateFirst st.waitingQueue (fun u => u.sessionID == sessionID)
        (fun u => { u with socketRef := sockId })
      { st with waitingQueue := q }
  | none =>
    let fresh := Session.mk (some sockId) none none false none []
    { st with sessionMap := st.sessionMap ++ [(sessionID, fresh)] }

/-- The `disconnect_partner` handler of the buffered revision
(`src/unnamed/part_002` lines 328-340): notifies only the partner,
dissolves the socket.io room, and clears the room, partner link and buffer
of the initiating session only. -/
def disconnectPartner (st : ServerState) (sockId : Nat) (sessionID : String) :
    ServerState :=
  let st := match lookupSession st sessionID with
    | some session =>
      match session.roomID with
      | some roomID =>
        let st := { st with emitted := st.emitted ++ [Event.partnerDisconnected roomID sockId] }
        let st := dropRoom st roomID
        setSession st sessionID (fun s =>
          { s with roomID := none, partnerSessionID := none, messageQueue := [] })
      | none => st
    | none => st
  { st with waitingQueue := removeFromQueue st.waitingQueue sessionID }

/-- Sending a sequence of messages, one `send_message` event per element
(the event loop serializes them). -/
def sendAll (st : ServerState) (sockId : Nat) (sessionID : String) (ms : List MsgIn) :
    ServerState :=
  ms.foldl (fun s m => sendMessage s sockId sessionID m) st

end Buffered

namespace Eager

/-- `AD_DELAY_MS = 3000` (`src/unnamed/part_000` line 20). -/
def AD_DELAY_MS : Nat := 3000

/-- A deferred callback of the eager revision: either the delayed
`executeMatch(socket, exactMatch.socket)` of a pairing that was already
decided, or the open-mode scan. -/
inductive TimerKind where
  | delayedMatch (socket1 socket2 : Nat)
  | anyScan (sessionID : String) (socketRef : Nat) (capturedField : String)
deriving Repr, DecidableEq

/-- A pending timeout of the eager revision. -/
structure Timer where
  fireAt : Nat
  kind : TimerKind
deriving Repr, DecidableEq

/-- The state of the eager revision (sessions, sockets and events have the
same shape as in `V1`). -/
structure ServerState where
  waitingQueue : List Entry
  sessionMap : List (String × V1.Session)
  sockets : List V1.Socket
  timers : List Timer
  now : Nat
  emitted : List V1.Event
deriving Repr, DecidableEq

/-- `removeFromQueue` (`src/unnamed/part_000` lines 43-45). -/
def removeFromQueue (q : List Entry) (sessionID : String) : List Entry :=
  q.filter (fun u => u.sessionID != sessionID)

/-- `sessionMap.get(sessionID)`. -/
def lookupSession (st : ServerState) (sessionID : String) : Option V1.Session :=
  (st.sessionMap.find? (fun p => p.1 == sessionID)).map (·.2)

/-- Mutation of the `sessionMap` entry for `sessionID`. -/
def setSession (st : ServerState) (sessionID : String) (f : V1.Session → V1.Session) :
    ServerState :=
  { st with sessionMap :=
      st.sessionMap.map (fun p => if p.1 == sessionID then (p.1, f p.2) else p) }

/-- Mutation of the fields stored on a live socket object. -/
def setSocket (st : ServerState) (sockId : Nat) (f : V1.Socket → V1.Socket) :
    ServerState :=
  { st with sockets := st.sockets.map (fun k => if k.id == sockId then f k else k) }

/-- The `find_partner` handler of `src/unnamed/part_000` (lines 173-244):
the part that runs synchronously at submission time.  Unlike
`V1.findPartner`, when the submitted field is non-generic and an
exact-field candidate is already waiting, the candidate is selected and
both match locks are set here, synchronously; only the `executeMatch` call
is deferred by `AD_DELAY_MS`.  Otherwise the open-mode scan is scheduled
`AD_DELAY_MS` from now. -/
def findPartner (st : ServerState) (sockId : Nat) (sessionID : String)
    (userData : UserData) : ServerState :=
  let st := setSocket st sockId (fun k => { k with userData := some userData })
  let st := match lookupSession st sessionID with
    | some _ => setSession st sessionID (fun s => { s with userData := some userData })
    | none => st
  let st := { st with waitingQueue := removeFromQueue st.waitingQueue sessionID }
  let isGenericField := userData.field == "" || userData.field == "Others"
  let myEntry : Entry := Entry.mk sessionID sockId userData false false st.now
  let q := st.waitingQueue ++ [myEntry]
  let st := { st with waitingQueue := q }
  let exact? := if isGenericField then none else
    findWithIdx q (fun u =>
      u.sessionID != sessionID && !u.isMatched &&
      (u.userData.field == userData.field &&
       u.userData.field != "" && u.userData.field != "Others")) 0
  match exact? with
  | some (j, exactMatch) =>
    let q1 := setAt q (q.length - 1) V1.lockEntry
    let q2 := setAt q1 j V1.lockEntry
    let t := Timer.mk (st.now + AD_DELAY_MS) (TimerKind.delayedMatch sockId exactMatch.socketRef)
    { st with waitingQueue := q2, timers := st.timers ++ [t] }
  | none =>
    let t := Timer.mk (st.now + AD_DELAY_MS) (TimerKind.anyScan sessionID sockId userData.field)
    { st with timers := st.timers ++ [t] }

end Eager

/-! ### Basic lemmas about the list helpers -/

theorem findWithIdx_mem {α : Type} {p : α → Bool} :
    ∀ {q : List α} {n j : Nat} {u : α}, findWithIdx q p n = some (j, u) → u ∈ q ∧ p u = true := by
  intro q
  induction q with
  | nil => intro n j u h; simp [findWithIdx] at h
  | cons a rest ih =>
    intro n j u h
    rw [findWithIdx] at h
    by_cases hp : p a = true
    · rw [if_pos hp] at h
      have hinj := Option.some.inj h
      have ha : a = u := congrArg Prod.snd hinj
      subst ha
      exact ⟨List.mem_cons_self _ _, hp⟩
    · rw [if_neg hp] at h
      obtain ⟨hm, hpu⟩ := ih h
      exact ⟨List.mem_cons_of_mem _ hm, hpu⟩

theorem findWithIdx_spec {α : Type} (p : α → Bool) :
    ∀ (q : List α) (n j : Nat) (u : α), findWithIdx q p n = some (j, u) →
      n ≤ j ∧ q.get? (j - n) = some u ∧ p u = true ∧
      ∀ k, k < j - n → ∀ v, q.get? k = some v → p v = false := by
  intro q
  induction q with
  | nil => intro n j u h; simp [findWithIdx] at h
  | cons a rest ih =>
    intro n j u h
    rw [findWithIdx] at h
    by_cases hp : p a = true
    · rw [if_pos hp] at h
      have hinj := Option.some.inj h
      have hn : n = j := congrArg Prod.fst hinj
      have ha : a = u := congrArg Prod.snd hinj
      subst hn; subst ha
      refine ⟨Nat.le_refl _, ?_, hp, ?_⟩
      · simp [Nat.sub_self]
      · intro k hk v _
        rw [Nat.sub_self] at hk
        exact absurd hk (Nat.not_lt_zero k)
    · rw [if_neg hp] at h
      obtain ⟨hle, hget, hpu, hmin⟩ := ih (n + 1) j u h
      have hj : j - n = (j - (n + 1)) + 1 := by omega
      refine ⟨by omega, ?_, hpu, ?_⟩
      · rw [hj, List.get?_cons_succ]; exact hget
      · intro k hk v hv
        cases k with
        | zero =>
          have hva : v = a := by
            have := Option.some.inj hv.symm
            exact this
          subst hva
          simp at hp
          exact hp
        | succ k' =>
          rw [List.get?_cons_succ] at hv
          have hk' : k' < j - (n + 1) := by omega
          exact hmin k' hk' v hv

theorem findWithIdx_none {α : Type} (p : α → Bool) :
    ∀ (q : List α) (n : Nat), findWithIdx q p n = none → ∀ u ∈ q, p u = false := by
  intro q
  induction q with
  | nil => intro n _ u hu; simp at hu
  | cons a rest ih =>
    intro n h u hu
    rw [findWithIdx] at h
    by_cases hp : p a = true
    · rw [if_pos hp] at h; exact absurd h (by simp)
    · rw [if_neg hp] at h
      rcases List.mem_cons.mp hu with rfl | hm
      · simp at hp; exact hp
      · exact ih (n + 1) h u hm

theorem setAt_map {α β : Type} (g : α → β) (f : α → α) (hf : ∀ u, g (f u) = g u) :
    ∀ (q : List α) (i : Nat), (setAt q i f).map g = q.map g := by
  intro q
  induction q with
  | nil => intro i; rfl
  | cons a rest ih =>
    intro i
    cases i with
    | zero => simp [setAt, hf]
    | succ i' => simp [setAt, ih]

theorem setAt_get? {α : Type} (f : α → α) :
    ∀ (q : List α) (i k : Nat),
      (setAt q i f).get? k = if k = i then (q.get? k).map f else q.get? k := by
  intro q
  induction q with
  | nil => intro i k; simp [setAt]
  | cons a rest ih =>
    intro i k
    cases i with
    | zero =>
      cases k with
      | zero => simp [setAt]
      | succ k' => simp [setAt]
    | succ i' =>
      cases k with
      | zero => simp [setAt]
      | succ k' =>
        show (setAt rest i' f).get? k' =
          if k' + 1 = i' + 1 then (rest.get? k').map f else rest.get? k'
        rw [ih i' k']
        by_cases h : k' = i' <;> simp [h]

theorem updateFirst_map {α β : Type} (g : α → β) (p : α → Bool) (f : α → α)
    (hf : ∀ u, g (f u) = g u) :
    ∀ (q : List α), (updateFirst q p f).map g = q.map g := by
  intro q
  induction q with
  | nil => rfl
  | cons a rest ih =>
    by_cases hp : p a = true
    · simp [updateFirst, hp, hf]
    · simp [updateFirst, hp, ih]

theorem updateFirst_mem {α : Type} (p : α → Bool) (f : α → α) :
    ∀ {q : List α} {u : α}, u ∈ updateFirst q p f →
      u ∈ q ∨ ∃ v, v ∈ q ∧ p v = true ∧ u = f v := by
  intro q
  induction q with
  | nil => intro u h; simp [updateFirst] at h
  | cons a rest ih =>
    intro u h
    by_cases hp : p a = true
    · rw [updateFirst, if_pos hp] at h
      rcases List.mem_cons.mp h with rfl | hm
      · exact Or.inr ⟨a, List.mem_cons_self _ _, hp, rfl⟩
      · exact Or.inl (List.mem_cons_of_mem _ hm)
    · rw [updateFirst, if_neg hp] at h
      rcases List.mem_cons.mp h with rfl | hm
      · exact Or.inl (List.mem_cons_self _ _)
      · rcases ih hm with h1 | ⟨v, hv, hpv, rfl⟩
        · exact Or.inl (List.mem_cons_of_mem _ h1)
        · exact Or.inr ⟨v, List.mem_cons_of_mem _ hv, hpv, rfl⟩

theorem unlock_exists :
    ∀ (q : List Entry) (sid : String), (∃ u, u ∈ q ∧ u.sessionID = sid) →
      ∃ u, u ∈ updateFirst q (fun u => u.sessionID == sid)
              (fun u => { u with isMatched := false }) ∧
           u.sessionID = sid ∧ u.isMatched = false := by
  intro q sid
  induction q with
  | nil => rintro ⟨u, hu, -⟩; simp at hu
  | cons a rest ih =>
    rintro ⟨u, hu, hsid⟩
    by_cases hp : a.sessionID = sid
    · refine ⟨{ a with isMatched := false }, ?_, hp, rfl⟩
      rw [updateFirst, if_pos (by simp [hp])]
      exact List.mem_cons_self _ _
    · rw [updateFirst, if_neg (by simp [hp])]
      rcases List.mem_cons.mp hu with rfl | hm
      · exact absurd hsid hp
      · obtain ⟨w, hw, h1, h2⟩ := ih ⟨u, hm, hsid⟩
        exact ⟨w, List.mem_cons_of_mem _ hw, h1, h2⟩

theorem find?_fst_map {β : Type} (g : String × β → String × β)
    (hg : ∀ p, (g p).1 = p.1) (k : String) :
    ∀ (l : List (String × β)),
      (l.map g).find? (fun p => p.1 == k) = (l.find? (fun p => p.1 == k)).map g := by
  intro l
  induction l with
  | nil => rfl
  | cons a rest ih =>
    by_cases h : a.1 = k
    · rw [List.map_cons,
        List.find?_cons_of_pos _ (by rw [hg]; simp [h]),
        List.find?_cons_of_pos _ (by simp [h])]
      rfl
    · rw [List.map_cons,
        List.find?_cons_of_neg _ (by rw [hg]; simp [h]),
        List.find?_cons_of_neg _ (by simp [h]), ih]

theorem find?_append_none {α : Type} (p : α → Bool) (l1 l2 : List α)
    (h : l1.find? p = none) : (l1 ++ l2).find? p = l2.find? p := by
  induction l1 with
  | nil => rfl
  | cons a rest ih =>
    by_cases hp : p a = true
    · rw [List.find?_cons_of_pos _ hp] at h; exact absurd h (by simp)
    · rw [List.find?_cons_of_neg _ hp] at h
      rw [List.cons_append, List.find?_cons_of_neg _ hp]
      exact ih h

/-! ### Frame lemmas for the `V1` state operations -/

namespace V1

@[simp] theorem setSession_waitingQueue (st : ServerState) (sid : String) (f) :
    (setSession st sid f).waitingQueue = st.waitingQueue := rfl

@[simp] theorem setSession_sockets (st : ServerState) (sid : String) (f) :
    (setSession st sid f).sockets = st.sockets := rfl

@[simp] theorem setSession_rooms (st : ServerState) (sid : String) (f) :
    (setSession st sid f).rooms = st.rooms := rfl

@[simp] theorem setSession_timers (st : ServerState) (sid : String) (f) :
    (setSession st sid f).timers = st.timers := rfl

@[simp] theorem setSession_now (st : ServerState) (sid : String) (f) :
    (setSession st sid f).now = st.now := rfl

@[simp] theorem setSession_emitted (st : ServerState) (sid : String) (f) :
    (setSession st sid f).emitted = st.emitted := rfl

@[simp] theorem setSocket_waitingQueue (st : ServerState) (k : Nat) (f) :
    (setSocket st k f).waitingQueue = st.waitingQueue := rfl

@[simp] theorem setSocket_sessionMap (st : ServerState) (k : Nat) (f) :
    (setSocket st k f).sessionMap = st.sessionMap := rfl

@[simp] theorem setSocket_rooms (st : ServerState) (k : Nat) (f) :
    (setSocket st k f).rooms = st.rooms := rfl

@[simp] theorem setSocket_timers (st : ServerState) (k : Nat) (f) :
    (setSocket st k f).timers = st.timers := rfl

@[simp] theorem setSocket_now (st : ServerState) (k : Nat) (f) :
    (setSocket st k f).now = st.now := rfl

@[simp] theorem setSocket_emitted (st : ServerState) (k : Nat) (f) :
    (setSocket st k f).emitted = st.emitted := rfl

@[simp] theorem joinRoom_waitingQueue (st : ServerState) (k : Nat) (r : String) :
    (joinRoom st k r).waitingQueue = st.waitingQueue := by
  unfold joinRoom; split <;> rfl

@[simp] theorem joinRoom_sessionMap (st : ServerState) (k : Nat) (r : String) :
    (joinRoom st k r).sessionMap = st.sessionMap := by
  unfold joinRoom; split <;> rfl

@[simp] theorem joinRoom_sockets (st : ServerState) (k : Nat) (r : String) :
    (joinRoom st k r).sockets = st.sockets := by
  unfold joinRoom; split <;> rfl

@[simp] theorem joinRoom_timers (st : ServerState) (k : Nat) (r : String) :
    (joinRoom st k r).timers = st.timers := by
  unfold joinRoom; split <;> rfl

@[simp] theorem joinRoom_now (st : ServerState) (k : Nat) (r : String) :
    (joinRoom st k r).now = st.now := by
  unfold joinRoom; split <;> rfl

@[simp] theorem joinRoom_emitted (st : ServerState) (k : Nat) (r : String) :
    (joinRoom st k r).emitted = st.emitted := by
  unfold joinRoom; split <;> rfl

@[simp] theorem leaveRoom_waitingQueue (st : ServerState) (k : Nat) (r : String) :
    (leaveRoom st k r).waitingQueue = st.waitingQueue := rfl

@[simp] theorem leaveRoom_sessionMap (st : ServerState) (k : Nat) (r : String) :
    (leaveRoom st k r).sessionMap = st.sessionMap := rfl

@[simp] theorem leaveRoom_timers (st : ServerState) (k : Nat) (r : String) :
    (leaveRoom st k r).timers = st.timers := rfl

@[simp] theorem leaveRoom_now (st : ServerState) (k : Nat) (r : String) :
    (leaveRoom st k r).now = st.now := rfl

@[simp] theorem leaveRoom_emitted (st : ServerState) (k : Nat) (r : String) :
    (leaveRoom st k r).emitted = st.emitted := rfl

@[simp] theorem dropRoom_waitingQueue (st : ServerState) (r : String) :
    (dropRoom st r).waitingQueue = st.waitingQueue := rfl

@[simp] theorem dropRoom_sessionMap (st : ServerState) (r : String) :
    (dropRoom st r).sessionMap = st.sessionMap := rfl

@[simp] theorem dropRoom_timers (st : ServerState) (r : String) :
    (dropRoom st r).timers = st.timers := rfl

@[simp] theorem dropRoom_emitted (st : ServerState) (r : String) :
    (dropRoom st r).emitted = st.emitted := rfl

@[simp] theorem clearGrace_waitingQueue (st : ServerState) (sid : String) :
    (clearGrace st sid).waitingQueue = st.waitingQueue := rfl

@[simp] theorem clearGrace_sessionMap (st : ServerState) (sid : String) :
    (clearGrace st sid).sessionMap = st.sessionMap := rfl

@[simp] theorem clearGrace_rooms (st : ServerState) (sid : String) :
    (clearGrace st sid).rooms = st.rooms := rfl

@[simp] theorem clearGrace_emitted (st : ServerState) (sid : String) :
    (clearGrace st sid).emitted = st.emitted := rfl

/-- `lookupSession` only reads the session map, so it sees through every
operation that leaves the session map unchanged. -/
theorem lookupSession_congr {st1 st2 : ServerState} (h : st1.sessionMap = st2.sessionMap)
    (sid : String) : lookupSession st1 sid = lookupSession st2 sid := by
  unfold lookupSession; rw [h]

theorem lookupSession_setSession (st : ServerState) (sid k : String) (f) :
    lookupSession (setSession st sid f) k =
      if k = sid then (lookupSession st k).map f else lookupSession st k := by
  unfold lookupSession setSession
  rw [find?_fst_map (fun p => if p.1 == sid then (p.1, f p.2) else p)
      (by intro p; by_cases h : p.1 = sid <;> simp [h]) k]
  cases hfind : st.sessionMap.find? (fun p => p.1 == k) with
  | none => simp
  | some pr =>
    have hpk := List.find?_some hfind
    have hprk : pr.1 = k := by simpa using hpk
    by_cases hk : k = sid
    · simp [hk, hprk]
    · simp [hk, hprk]

theorem queueSessions_removeFromQueue (q : List Entry) (sid : String) :
    queueSessions (removeFromQueue q sid) =
      (queueSessions q).filter (fun s => s != sid) := by
  unfold queueSessions removeFromQueue
  induction q with
  | nil => rfl
  | cons a rest ih =>
    by_cases h : a.sessionID = sid
    · simp [h, ih]
    · simp [h, ih]

theorem queueSessions_unlockFirst (q : List Entry) (sid : String) :
    queueSessions (unlockFirst q sid) = queueSessions q := by
  unfold queueSessions unlockFirst
  exact updateFirst_map (fun x => x.sessionID) (fun u => u.sessionID == sid)
    (fun u => { u with isMatched := false }) (fun u => rfl) q

/-- The sessions credited with a `matched` notification in an event-log
extension. -/
theorem matchedSessions_append (l1 l2 : List Event) :
    matchedSessions (l1 ++ l2) = matchedSessions l1 ++ matchedSessions l2 := by
  unfold matchedSessions; simp

/-- Complete case analysis of `executeMatch` at the level of the event log
and the queue's session ids: either it aborts — emitting nothing and
keeping every queue session — or it emits exactly one `matched` event to
each of the two sessions and removes exactly their entries. -/
theorem executeMatch_cases (st : ServerState) (sid1 sid2 : String) :
    ((executeMatch st sid1 sid2).emitted = st.emitted ∧
     queueSessions (executeMatch st sid1 sid2).waitingQueue =
       queueSessions st.waitingQueue) ∨
    (∃ k1 k2 n1 f1 n2 f2 r,
      (executeMatch st sid1 sid2).emitted =
        st.emitted ++ [Event.matched sid1 k1 n1 f1 r, Event.matched sid2 k2 n2 f2 r] ∧
      queueSessions (executeMatch st sid1 sid2).waitingQueue =
        ((queueSessions st.waitingQueue).filter (fun s => s != sid1)).filter
          (fun s => s != sid2)) := by
  unfold executeMatch
  cases h1 : getSocketFromSession st sid1 with
  | none =>
    cases h2 : getSocketFromSession st sid2 with
    | none => exact Or.inl ⟨rfl, rfl⟩
    | some k2 => exact Or.inl ⟨rfl, queueSessions_unlockFirst _ _⟩
  | some k1 =>
    cases h2 : getSocketFromSession st sid2 with
    | none => exact Or.inl ⟨rfl, queueSessions_unlockFirst _ _⟩
    | some k2 =>
      refine Or.inr ⟨k1.id, k2.id, nameOr k2.userData, fieldOr k2.userData,
        nameOr k1.userData, fieldOr k1.userData,
        toString k1.id ++ "#" ++ toString k2.id, ?_, ?_⟩
      · simp
      · simp [queueSessions_removeFromQueue]

theorem queueSessions_setAt (q : List Entry) (i : Nat) (f : Entry → Entry)
    (hf : ∀ u, (f u).sessionID = u.sessionID) :
    queueSessions (setAt q i f) = queueSessions q := by
  unfold queueSessions; exact setAt_map _ f hf q i

theorem mem_queueSessions_of_mem {q : List Entry} {u : Entry} (h : u ∈ q) :
    u.sessionID ∈ queueSessions q := List.mem_map_of_mem _ h

/-- The no-double-pairing invariant: `matched` recipients are pairwise
distinct, no `matched` recipient is still in the pool, and the pool has no
duplicate session ids. -/
def disjointPairing (st : ServerState) : Prop :=
  (matchedSessions st.emitted).Nodup ∧
  (∀ sid ∈ matchedSessions st.emitted, sid ∉ queueSessions st.waitingQueue) ∧
  (queueSessions st.waitingQueue).Nodup

/-- Locking two pool sessions and executing their pairing preserves the
no-double-pairing invariant. -/
theorem lockAndMatch_preserves (st : ServerState) (sid1 sid2 : String) (q' : List Entry)
    (hq : queueSessions q' = queueSessions st.waitingQueue)
    (h1 : sid1 ∈ queueSessions st.waitingQueue)
    (h2 : sid2 ∈ queueSessions st.waitingQueue)
    (hne : sid1 ≠ sid2)
    (hinv : disjointPairing st) :
    disjointPairing (executeMatch { st with waitingQueue := q' } sid1 sid2) := by
  obtain ⟨hnd, hout, hqnd⟩ := hinv
  rcases executeMatch_cases { st with waitingQueue := q' } sid1 sid2 with
    ⟨he, hqs⟩ | ⟨k1, k2, n1, f1, n2, f2, r, he, hqs⟩
  · have he' : (executeMatch { st with waitingQueue := q' } sid1 sid2).emitted
        = st.emitted := he
    have hqs' : queueSessions (executeMatch { st with waitingQueue := q' } sid1 sid2).waitingQueue
        = queueSessions st.waitingQueue := by rw [hqs]; exact hq
    refine ⟨?_, ?_, ?_⟩
    · rw [he']; exact hnd
    · intro sid hs
      rw [he'] at hs
      rw [hqs']
      exact hout sid hs
    · rw [hqs']; exact hqnd
  · have he' : matchedSessions (executeMatch { st with waitingQueue := q' } sid1 sid2).emitted
        = matchedSessions st.emitted ++ [sid1, sid2] := by
      rw [he, matchedSessions_append]
      rfl
    have hqs' : queueSessions (executeMatch { st with waitingQueue := q' } sid1 sid2).waitingQueue
        = ((queueSessions st.waitingQueue).filter (fun s => s != sid1)).filter
            (fun s => s != sid2) := by
      rw [hqs]
      rw [show queueSessions ({ st with waitingQueue := q' } : ServerState).waitingQueue
            = queueSessions st.waitingQueue from hq]
    refine ⟨?_, ?_, ?_⟩
    · rw [he', List.nodup_append]
      refine ⟨hnd, by simp [hne], ?_⟩
      intro a ha hb
      rcases (by simpa using hb : a = sid1 ∨ a = sid2) with rfl | rfl
      · exact hout _ ha h1
      · exact hout _ ha h2
    · intro sid hs
      rw [he'] at hs
      rw [hqs']
      intro hmem
      rw [List.mem_filter] at hmem
      obtain ⟨hmem1, hs2⟩ := hmem
      rw [List.mem_filter] at hmem1
      obtain ⟨hmem0, hs1⟩ := hmem1
      rcases List.mem_append.mp hs with hA | hB
      · exact hout sid hA hmem0
      · rcases (by simpa using hB : sid = sid1 ∨ sid = sid2) with rfl | rfl
        · simp at hs1
        · simp at hs2
    · rw [hqs']; exact (hqnd.filter _).filter _

/-- The phase-1 timer body preserves the no-double-pairing invariant. -/
theorem phase1Scan_preserves (st : ServerState) (sid f : String)
    (hinv : disjointPairing st) : disjointPairing (phase1Scan st sid f) := by
  unfold phase1Scan
  split
  · exact hinv
  next i cur heq =>
    split
    · exact hinv
    next hm =>
      dsimp only
      split
      next j c heq2 =>
        have hfind2 : findWithIdx st.waitingQueue (fun u =>
            u.sessionID != sid && !u.isMatched &&
            (u.userData.field == f && u.userData.field != "" &&
             u.userData.field != "Others")) 0 = some (j, c) := by
          by_cases hg : (f == "" || f == "Others") = true
          · rw [if_pos hg] at heq2; exact absurd heq2 (by simp)
          · rw [if_neg hg] at heq2; exact heq2
        obtain ⟨hcur_mem, hcur_p⟩ := findWithIdx_mem heq
        obtain ⟨hc_mem, hc_p⟩ := findWithIdx_mem hfind2
        have hcur_sid : cur.sessionID = sid := by simpa using hcur_p
        have h1 : sid ∈ queueSessions st.waitingQueue := by
          rw [← hcur_sid]; exact mem_queueSessions_of_mem hcur_mem
        have h2 : c.sessionID ∈ queueSessions st.waitingQueue :=
          mem_queueSessions_of_mem hc_mem
        have hcne : c.sessionID ≠ sid := by
          have := hc_p
          simp only [Bool.and_eq_true, bne_iff_ne] at this
          exact this.1.1
        have hq : queueSessions (setAt (setAt st.waitingQueue i lockEntry) j lockEntry)
            = queueSessions st.waitingQueue := by
          rw [queueSessions_setAt _ j lockEntry (fun u => rfl),
              queueSessions_setAt _ i lockEntry (fun u => rfl)]
        exact lockAndMatch_preserves st sid c.sessionID _ hq h1 h2
          (fun h => hcne h.symm) hinv
      next heq2 => exact hinv

/-- The phase-2 timer body preserves the no-double-pairing invariant. -/
theorem phase2Scan_preserves (st : ServerState) (sid f : String)
    (hinv : disjointPairing st) : disjointPairing (phase2Scan st sid f) := by
  unfold phase2Scan
  split
  · exact hinv
  next i cur heq =>
    split
    · exact hinv
    next hm =>
      dsimp only
      split
      next j c heq2 =>
        obtain ⟨hcur_mem, hcur_p⟩ := findWithIdx_mem heq
        obtain ⟨hc_mem, hc_p⟩ := findWithIdx_mem heq2
        have hcur_sid : cur.sessionID = sid := by simpa using hcur_p
        have h1 : sid ∈ queueSessions st.waitingQueue := by
          rw [← hcur_sid]; exact mem_queueSessions_of_mem hcur_mem
        have h2 : c.sessionID ∈ queueSessions st.waitingQueue := by
          have hmem0 : c.sessionID ∈ queueSessions
              (setAt st.waitingQueue i (fun u => { u with openToAny := true })) :=
            mem_queueSessions_of_mem hc_mem
          rwa [queueSessions_setAt _ i (fun u => { u with openToAny := true })
            (fun u => rfl)] at hmem0
        have hcne : c.sessionID ≠ sid := by
          have := hc_p
          simp only [Bool.and_eq_true, bne_iff_ne] at this
          exact this.1.1
        have hq : queueSessions (setAt (setAt
              (setAt st.waitingQueue i (fun u => { u with openToAny := true }))
              i lockEntry) j lockEntry)
            = queueSessions st.waitingQueue := by
          rw [queueSessions_setAt _ j lockEntry (fun u => rfl),
              queueSessions_setAt _ i lockEntry (fun u => rfl),
              queueSessions_setAt _ i (fun u => { u with openToAny := true })
                (fun u => rfl)]
        exact lockAndMatch_preserves st sid c.sessionID _ hq h1 h2
          (fun h => hcne h.symm) hinv
      next heq2 =>
        refine ⟨hinv.1, ?_, ?_⟩
        · intro s hs
          show s ∉ queueSessions
            (setAt st.waitingQueue i (fun u => { u with openToAny := true }))
          rw [queueSessions_setAt _ i (fun u => { u with openToAny := true })
            (fun u => rfl)]
          exact hinv.2.1 s hs
        · show (queueSessions
            (setAt st.waitingQueue i (fun u => { u with openToAny := true }))).Nodup
          rw [queueSessions_setAt _ i (fun u => { u with openToAny := true })
            (fun u => rfl)]
          exact hinv.2.2

/-- Any sequence of phase-timer callbacks preserves the invariant. -/
theorem runScans_preserves (ops : List ScanOp) :
    ∀ (st : ServerState), disjointPairing st → disjointPairing (runScans st ops) := by
  induction ops with
  | nil => intro st h; exact h
  | cons op rest ih =>
    intro st h
    cases op with
    | p1 sid f => exact ih _ (phase1Scan_preserves st sid f h)
    | p2 sid f => exact ih _ (phase2Scan_preserves st sid f h)

/-! ### Branch reduction lemmas for the two scan bodies -/

theorem phase1Scan_no_entry (st : ServerState) (sid f : String)
    (h : findWithIdx st.waitingQueue (fun u => u.sessionID == sid) 0 = none) :
    phase1Scan st sid f = st := by
  unfold phase1Scan; rw [h]

theorem phase1Scan_locked (st : ServerState) (sid f : String) (i : Nat) (cur : Entry)
    (h : findWithIdx st.waitingQueue (fun u => u.sessionID == sid) 0 = some (i, cur))
    (hm : cur.isMatched = true) :
    phase1Scan st sid f = st := by
  unfold phase1Scan; rw [h]; simp [hm]

theorem phase1Scan_candidate (st : ServerState) (sid f : String) (i : Nat) (cur : Entry)
    (j : Nat) (c : Entry)
    (h : findWithIdx st.waitingQueue (fun u => u.sessionID == sid) 0 = some (i, cur))
    (hm : cur.isMatched = false)
    (hE : (if (f == "" || f == "Others") = true then none
           else findWithIdx st.waitingQueue (fun u =>
             u.sessionID != sid && !u.isMatched &&
             (u.userData.field == f && u.userData.field != "" &&
              u.userData.field != "Others")) 0) = some (j, c)) :
    phase1Scan st sid f =
      executeMatch
        { st with waitingQueue := setAt (setAt st.waitingQueue i lockEntry) j lockEntry }
        sid c.sessionID := by
  unfold phase1Scan; rw [h]
  simp at hE
  simp [hm, hE]

theorem phase1Scan_no_candidate (st : ServerState) (sid f : String) (i : Nat) (cur : Entry)
    (h : findWithIdx st.waitingQueue (fun u => u.sessionID == sid) 0 = some (i, cur))
    (hm : cur.isMatched = false)
    (hE : (if (f == "" || f == "Others") = true then none
           else findWithIdx st.waitingQueue (fun u =>
             u.sessionID != sid && !u.isMatched &&
             (u.userData.field == f && u.userData.field != "" &&
              u.userData.field != "Others")) 0) = none) :
    phase1Scan st sid f =
      { st with timers := st.timers ++
          [Timer.mk (st.now + PHASE_2_DELAY) (TimerKind.phase2 sid f)] } := by
  unfold phase1Scan; rw [h]
  by_cases hg : f = "" ∨ f = "Others"
  · simp [hm, hg]
  · have hE' : findWithIdx st.waitingQueue (fun u =>
        u.sessionID != sid && !u.isMatched &&
        (u.userData.field == f && u.userData.field != "" &&
         u.userData.field != "Others")) 0 = none := by
      rw [if_neg (by simpa using hg)] at hE; exact hE
    simp [hm, hg, hE']

theorem phase2Scan_no_entry (st : ServerState) (sid f : String)
    (h : findWithIdx st.waitingQueue (fun u => u.sessionID == sid) 0 = none) :
    phase2Scan st sid f = st := by
  unfold phase2Scan; rw [h]

theorem phase2Scan_locked (st : ServerState) (sid f : String) (i : Nat) (cur : Entry)
    (h : findWithIdx st.waitingQueue (fun u => u.sessionID == sid) 0 = some (i, cur))
    (hm : cur.isMatched = true) :
    phase2Scan st sid f = st := by
  unfold phase2Scan; rw [h]; simp [hm]

theorem phase2Scan_candidate (st : ServerState) (sid f : String) (i : Nat) (cur : Entry)
    (j : Nat) (c : Entry)
    (h : findWithIdx st.waitingQueue (fun u => u.sessionID == sid) 0 = some (i, cur))
    (hm : cur.isMatched = false)
    (hE : findWithIdx (setAt st.waitingQueue i (fun u => { u with openToAny := true }))
           (fun u => u.sessionID != sid && !u.isMatched &&
             (u.openToAny || u.userData.field == f)) 0 = some (j, c)) :
    phase2Scan st sid f =
      executeMatch
        { st with waitingQueue := setAt (setAt (setAt st.waitingQueue i (fun u => { u with openToAny := true })) i lockEntry) j lockEntry }
        sid c.sessionID := by
  unfold phase2Scan; rw [h]; simp [hm, hE]

theorem phase2Scan_no_candidate (st : ServerState) (sid f : String) (i : Nat) (cur : Entry)
    (h : findWithIdx st.waitingQueue (fun u => u.sessionID == sid) 0 = some (i, cur))
    (hm : cur.isMatched = false)
    (hE : findWithIdx (setAt st.waitingQueue i (fun u => { u with openToAny := true }))
           (fun u => u.sessionID != sid && !u.isMatched &&
             (u.openToAny || u.userData.field == f)) 0 = none) :
    phase2Scan st sid f =
      { st with waitingQueue := setAt st.waitingQueue i (fun u => { u with openToAny := true }) } := by
  unfold phase2Scan; rw [h]; simp [hm, hE]

/-! ### Declarative eligibility predicates for the two scans -/

/-- The candidates the phase-1 scan may take, stated declaratively: another
session, unlocked, with a topic exactly equal to the searcher's captured
field and itself non-generic. -/
def exactEligible (sid f : String) (u : Entry) : Prop :=
  u.sessionID ≠ sid ∧ u.isMatched = false ∧
  u.userData.field = f ∧ u.userData.field ≠ "" ∧ u.userData.field ≠ "Others"

theorem exactEligible_iff (sid f : String) (u : Entry) :
    (u.sessionID != sid && !u.isMatched &&
     (u.userData.field == f && u.userData.field != "" &&
      u.userData.field != "Others")) = true ↔ exactEligible sid f u := by
  unfold exactEligible
  simp [Bool.and_eq_true, bne_iff_ne, Bool.not_eq_true', and_assoc]

/-- The candidates the phase-2 scan may take, stated declaratively: another
session, unlocked, and either itself `openToAny` or with a topic equal to
the searcher's captured field. -/
def anyEligible (sid f : String) (u : Entry) : Prop :=
  u.sessionID ≠ sid ∧ u.isMatched = false ∧
  (u.openToAny = true ∨ u.userData.field = f)

theorem anyEligible_iff (sid f : String) (u : Entry) :
    (u.sessionID != sid && !u.isMatched &&
     (u.openToAny || u.userData.field == f)) = true ↔ anyEligible sid f u := by
  unfold anyEligible
  simp [Bool.and_eq_true, Bool.or_eq_true, bne_iff_ne, Bool.not_eq_true', and_assoc]

/-- Functional characterization of the phase-1 scan: the re-validation
no-ops, and on a live unlocked entry either no exactly-matching non-generic
candidate exists (and only the phase-2 timer is scheduled) or the first
such candidate in pool order is taken, both entries are locked in the same
step, and the pairing is executed on the locked queue. -/
def phase1Post (st : ServerState) (sid f : String) : Prop :=
  (findWithIdx st.waitingQueue (fun u => u.sessionID == sid) 0 = none →
     phase1Scan st sid f = st) ∧
  (∀ i cur, findWithIdx st.waitingQueue (fun u => u.sessionID == sid) 0 = some (i, cur) →
     cur.isMatched = true → phase1Scan st sid f = st) ∧
  (∀ i cur, findWithIdx st.waitingQueue (fun u => u.sessionID == sid) 0 = some (i, cur) →
     cur.isMatched = false →
     ((∀ u ∈ st.waitingQueue, ¬ exactEligible sid f u) ∧
        phase1Scan st sid f =
          { st with timers := st.timers ++
              [Timer.mk (st.now + PHASE_2_DELAY) (TimerKind.phase2 sid f)] }) ∨
     (∃ j c, st.waitingQueue.get? j = some c ∧ exactEligible sid f c ∧
        (∀ k, k < j → ∀ v, st.waitingQueue.get? k = some v → ¬ exactEligible sid f v) ∧
        phase1Scan st sid f =
          executeMatch
            { st with waitingQueue := setAt (setAt st.waitingQueue i lockEntry) j lockEntry }
            sid c.sessionID))

/-- Functional characterization of the phase-2 scan over the queue in which
the searcher's entry has already been marked `openToAny`: re-validation
no-ops; otherwise either no `openToAny`-or-equal-topic candidate exists
(and only the `openToAny` mark persists) or the first such candidate in
pool order is taken, both entries are locked in the same step, and the
pairing is executed on the locked queue. -/
def phase2Post (st : ServerState) (sid f : String) : Prop :=
  (findWithIdx st.waitingQueue (fun u => u.sessionID == sid) 0 = none →
     phase2Scan st sid f = st) ∧
  (∀ i cur, findWithIdx st.waitingQueue (fun u => u.sessionID == sid) 0 = some (i, cur) →
     cur.isMatched = true → phase2Scan st sid f = st) ∧
  (∀ i cur, findWithIdx st.waitingQueue (fun u => u.sessionID == sid) 0 = some (i, cur) →
     cur.isMatched = false →
     ((∀ u ∈ setAt st.waitingQueue i (fun u => { u with openToAny := true }),
         ¬ anyEligible sid f u) ∧
        phase2Scan st sid f =
          { st with waitingQueue := setAt st.waitingQueue i (fun u => { u with openToAny := true }) }) ∨
     (∃ j c,
        (setAt st.waitingQueue i (fun u => { u with openToAny := true })).get? j = some c ∧
        anyEligible sid f c ∧
        (∀ k, k < j → ∀ v,
           (setAt st.waitingQueue i (fun u => { u with openToAny := true })).get? k = some v →
           ¬ anyEligible sid f v) ∧
        phase2Scan st sid f =
          executeMatch
            { st with waitingQueue := setAt (setAt (setAt st.waitingQueue i (fun u => { u with openToAny := true })) i lockEntry) j lockEntry }
            sid c.sessionID))

end V1

/-! ### Concrete states used by the witnesses -/

/-- Two sessions `"a"`, `"b"`, both connected and both waiting with the
non-generic field `"X"`; nothing emitted yet. -/
def stTwo : V1.ServerState :=
  V1.ServerState.mk
    [Entry.mk "a" 1 (UserData.mk "A" "X") false false 0,
     Entry.mk "b" 2 (UserData.mk "B" "X") false false 0]
    [("a", V1.Session.mk (some 1) none none false),
     ("b", V1.Session.mk (some 2) none none false)]
    [V1.Socket.mk 1 "a" (some (UserData.mk "A" "X")) none,
     V1.Socket.mk 2 "b" (some (UserData.mk "B" "X")) none]
    [] [] 3000 []

/-! ### The claim theorems -/

/-- Claim C1: pairing decisions never overlap.  A phase-1 or phase-2 scan
selects its candidate and sets both `isMatched` lock flags in the same
synchronous step (a single `applyScan` transition of the single-threaded
event loop, before the asynchronous work of later callbacks), so across
any sequence of scan callbacks run from a state whose pool has distinct
session ids and an empty emission log, no two scans take the same entry
and the recipients of `matched` notifications are pairwise distinct:
every session appears in at most one emitted pair. -/
theorem phase_scans_form_disjoint_pairing (st : V1.ServerState) (ops : List V1.ScanOp)
    (hq : (V1.queueSessions st.waitingQueue).Nodup)
    (he : st.emitted = []) :
    (V1.matchedSessions (V1.runScans st ops).emitted).Nodup := by
  have hinv : V1.disjointPairing st := by
    refine ⟨?_, ?_, hq⟩
    · rw [he]; exact List.nodup_nil
    · intro sid hs
      rw [he] at hs
      simp [V1.matchedSessions] at hs
  exact (V1.runScans_preserves ops st hinv).1

/-- Witness for the claim-C1 theorem: a concrete two-searcher state and a
single phase-1 scan that pairs them. -/
theorem phase_scans_form_disjoint_pairing_witness :
    (V1.queueSessions stTwo.waitingQueue).Nodup ∧ stTwo.emitted = [] ∧
    (V1.matchedSessions (V1.runScans stTwo [V1.ScanOp.p1 "a" "X"]).emitted).Nodup :=
  ⟨by decide, rfl,
   phase_scans_form_disjoint_pairing stTwo [V1.ScanOp.p1 "a" "X"] (by decide) rfl⟩

/-- Claim C3: at phase-1 expiry with a non-generic captured topic, the scan
re-validates that the searcher's entry still exists and is unlocked, then
takes exactly the first unlocked candidate in pool order whose topic
equals the searcher's and is itself non-generic, locking both entries in
the same step before executing the pairing; a candidate with a different
or generic topic is never taken. -/
theorem phase1_selects_first_exact_topic (st : V1.ServerState) (sid f : String)
    (hng : f ≠ "" ∧ f ≠ "Others") : V1.phase1Post st sid f := by
  have hgen : (f == "" || f == "Others") = false := by
    simp [hng.1, hng.2]
  refine ⟨V1.phase1Scan_no_entry st sid f,
    fun i cur h hm => V1.phase1Scan_locked st sid f i cur h hm, ?_⟩
  intro i cur h hm
  cases hE : findWithIdx st.waitingQueue (fun u =>
      u.sessionID != sid && !u.isMatched &&
      (u.userData.field == f && u.userData.field != "" &&
       u.userData.field != "Others")) 0 with
  | none =>
    refine Or.inl ⟨?_, ?_⟩
    · intro u hu hElig
      have hfalse := findWithIdx_none _ st.waitingQueue 0 hE u hu
      exact absurd ((V1.exactEligible_iff sid f u).mpr hElig) (by simp [hfalse])
    · exact V1.phase1Scan_no_candidate st sid f i cur h hm
        (by rw [if_neg (by simp [hgen])]; exact hE)
  | some pr =>
    obtain ⟨j, c⟩ := pr
    obtain ⟨-, hget, hp, hmin⟩ := findWithIdx_spec _ st.waitingQueue 0 j c hE
    rw [Nat.sub_zero] at hget
    refine Or.inr ⟨j, c, hget, (V1.exactEligible_iff sid f c).mp hp, ?_, ?_⟩
    · intro k hk v hv hElig
      have hfalse := hmin k (by omega) v hv
      exact absurd ((V1.exactEligible_iff sid f v).mpr hElig) (by simp [hfalse])
    · exact V1.phase1Scan_candidate st sid f i cur j c h hm
        (by rw [if_neg (by simp [hgen])]; exact hE)

/-- Witness for the claim-C3 theorem at a concrete state with an exact
match available. -/
theorem phase1_selects_first_exact_topic_witness :
    (("X" : String) ≠ "" ∧ ("X" : String) ≠ "Others") ∧ V1.phase1Post stTwo "a" "X" :=
  ⟨⟨by decide, by decide⟩,
   phase1_selects_first_exact_topic stTwo "a" "X" ⟨by decide, by decide⟩⟩

/-- Claim C4: at phase-2 expiry the scan re-validates the searcher's entry,
first marks it `openToAny`, and then takes exactly the first unlocked
candidate in pool order that is itself `openToAny` or has the searcher's
topic, locking both entries in the same step before executing the pairing;
a candidate that is neither `openToAny` nor topic-equal is never taken. -/
theorem phase2_selects_first_open_or_equal (st : V1.ServerState) (sid f : String) :
    V1.phase2Post st sid f := by
  refine ⟨V1.phase2Scan_no_entry st sid f,
    fun i cur h hm => V1.phase2Scan_locked st sid f i cur h hm, ?_⟩
  intro i cur h hm
  cases hE : findWithIdx (setAt st.waitingQueue i (fun u => { u with openToAny := true }))
      (fun u => u.sessionID != sid && !u.isMatched &&
        (u.openToAny || u.userData.field == f)) 0 with
  | none =>
    refine Or.inl ⟨?_, V1.phase2Scan_no_candidate st sid f i cur h hm hE⟩
    intro u hu hElig
    have hfalse := findWithIdx_none _ _ 0 hE u hu
    exact absurd ((V1.anyEligible_iff sid f u).mpr hElig) (by simp [hfalse])
  | some pr =>
    obtain ⟨j, c⟩ := pr
    obtain ⟨-, hget, hp, hmin⟩ := findWithIdx_spec _ _ 0 j c hE
    rw [Nat.sub_zero] at hget
    refine Or.inr ⟨j, c, hget, (V1.anyEligible_iff sid f c).mp hp, ?_,
      V1.phase2Scan_candidate st sid f i cur j c h hm hE⟩
    intro k hk v hv hElig
    have hfalse := hmin k (by omega) v hv
    exact absurd ((V1.anyEligible_iff sid f v).mpr hElig) (by simp [hfalse])

/-- Claim C6 (amended): the stale-disconnect guard of `src/server.js`.
When the session's stored socket id differs from the disconnecting
socket's id, that revision's disconnect handler is a complete no-op: no
room teardown, no grace timer, no queue removal, no emission — the state
is unchanged.  The claim's other cited revision, `src/unnamed/part_007`,
performs no such comparison and does mutate the state on a stale
disconnect. -/
theorem stale_disconnect_is_noop (st : V1.ServerState) (sockId : Nat)
    (sessionID : String) (s : V1.Session)
    (hs : V1.lookupSession st sessionID = some s)
    (hstale : s.socketId ≠ some sockId) :
    V1.disconnectHandler st sockId sessionID = st := by
  unfold V1.disconnectHandler
  rw [hs]
  simp [hstale]

/-- Witness for the claim-C6 theorem: session `"a"` is bound to socket `1`,
and a disconnect of stale socket `9` changes nothing. -/
theorem stale_disconnect_is_noop_witness :
    V1.lookupSession stTwo "a" = some (V1.Session.mk (some 1) none none false) ∧
    (V1.Session.mk (some 1) none none false).socketId ≠ some 9 ∧
    V1.disconnectHandler stTwo 9 "a" = stTwo :=
  ⟨by decide, by decide,
   stale_disconnect_is_noop stTwo 9 "a" (V1.Session.mk (some 1) none none false)
     (by decide) (by decide)⟩

/-- Claim C10: when the sender has no session entry, or its session has a
null room id, `send_message` is a silent no-op — nothing is emitted,
nothing joined, and the whole server state is unchanged. -/
theorem send_message_without_room_is_noop (st : V1.ServerState) (sockId : Nat)
    (sessionID text : String)
    (h : V1.lookupSession st sessionID = none ∨
         ∃ s, V1.lookupSession st sessionID = some s ∧ s.roomID = none) :
    V1.sendMessage st sockId sessionID text = st := by
  unfold V1.sendMessage
  rcases h with h | ⟨s, hs, hr⟩
  · rw [h]
  · rw [hs]
    simp [hr]

/-- Witness for the claim-C10 theorem: session `"a"` exists but has no
room, and a `send_message` leaves the state untouched. -/
theorem send_message_without_room_is_noop_witness :
    (V1.lookupSession stTwo "a" = none ∨
      ∃ s, V1.lookupSession stTwo "a" = some s ∧ s.roomID = none) ∧
    V1.sendMessage stTwo 1 "a" "hi" = stTwo :=
  ⟨Or.inr ⟨V1.Session.mk (some 1) none none false, by decide, rfl⟩,
   send_message_without_room_is_noop stTwo 1 "a" "hi"
     (Or.inr ⟨V1.Session.mk (some 1) none none false, by decide, rfl⟩)⟩

/-! ### Support for C7 (grace expiry) and C8 (aborted pairing) -/

theorem find?_filter_ne_none {β : Type} (l : List (String × β)) (sid : String) :
    (l.filter (fun p => p.1 != sid)).find? (fun p => p.1 == sid) = none := by
  rw [List.find?_eq_none]
  intro p hp
  have h2 := (List.mem_filter.mp hp).2
  simp at h2 ⊢
  exact h2

theorem lookupSession_set_sockets (st : V1.ServerState) (ks : List V1.Socket)
    (sid : String) :
    V1.lookupSession { st with sockets := ks } sid = V1.lookupSession st sid := rfl

/-- What grace expiry leaves behind (the body of the grace timer is
`cleanupSession`): exactly one `partner_disconnected` emission to the room,
the room dissolved, the session gone from the store, and any subsequent
connect with the same token creating a brand-new idle session. -/
def gracefulRemoval (st : V1.ServerState) (sessionID roomID : String) : Prop :=
  (V1.cleanupSession st sessionID).emitted =
      st.emitted ++ [V1.Event.partnerDisconnected roomID] ∧
  (∀ p ∈ (V1.cleanupSession st sessionID).rooms, p.1 ≠ roomID) ∧
  V1.lookupSession (V1.cleanupSession st sessionID) sessionID = none ∧
  (∀ newSock : Nat,
     V1.lookupSession
       (V1.connectHandler (V1.cleanupSession st sessionID) newSock sessionID)
       sessionID = some (V1.Session.mk (some newSock) none none false))

/-- Claim C7: grace-timer expiry for a paired session notifies the room
exactly once with `partner_disconnected`, tears the room down, deletes the
session entirely, and a later connect with the same token starts from a
brand-new session (no room, no data, no timer). -/
theorem grace_expiry_removes_session (st : V1.ServerState)
    (sessionID roomID : String) (s : V1.Session)
    (hs : V1.lookupSession st sessionID = some s)
    (hr : s.roomID = some roomID) :
    gracefulRemoval st sessionID roomID := by
  have h1 : (V1.cleanupSession st sessionID).emitted =
      st.emitted ++ [V1.Event.partnerDisconnected roomID] := by
    unfold V1.cleanupSession
    rw [hs]
    by_cases ht : s.timer <;> simp [ht, hr, V1.dropRoom]
  have h2 : ∀ p ∈ (V1.cleanupSession st sessionID).rooms, p.1 ≠ roomID := by
    intro p hp
    unfold V1.cleanupSession at hp
    rw [hs] at hp
    by_cases ht : s.timer <;>
      simp [ht, hr, V1.dropRoom, List.mem_filter] at hp <;>
      exact hp.2
  have hmap : (V1.cleanupSession st sessionID).sessionMap =
      st.sessionMap.filter (fun p => p.1 != sessionID) := by
    unfold V1.cleanupSession
    rw [hs]
    by_cases ht : s.timer <;> simp [ht, hr, V1.dropRoom]
  have h3 : V1.lookupSession (V1.cleanupSession st sessionID) sessionID = none := by
    unfold V1.lookupSession
    rw [hmap, find?_filter_ne_none]
    rfl
  refine ⟨h1, h2, h3, ?_⟩
  intro newSock
  have hfindnone : (V1.cleanupSession st sessionID).sessionMap.find?
      (fun p => p.1 == sessionID) = none := by
    have h3' := h3
    unfold V1.lookupSession at h3'
    exact Option.map_eq_none'.mp h3'
  unfold V1.connectHandler
  simp only [lookupSession_set_sockets, h3]
  simp [V1.lookupSession, find?_append_none _ _ _ hfindnone]

/-- Witness state for C7: session `"a"` is paired with `"b"` in room
`"1#2"` but currently disconnected with its grace timer pending; `"b"` is
connected and in the room. -/
def stPairV1 : V1.ServerState :=
  V1.ServerState.mk
    []
    [("a", V1.Session.mk (some 1) (some "1#2") none true),
     ("b", V1.Session.mk (some 2) (some "1#2") none false)]
    [V1.Socket.mk 2 "b" none (some "1#2")]
    [("1#2", [2])]
    [V1.Timer.mk 180000 (V1.TimerKind.grace "a")]
    180000 []

/-- Witness for the claim-C7 theorem at the concrete paired state. -/
theorem grace_expiry_removes_session_witness :
    V1.lookupSession stPairV1 "a" = some (V1.Session.mk (some 1) (some "1#2") none true) ∧
    (V1.Session.mk (some 1) (some "1#2") none true).roomID = some "1#2" ∧
    gracefulRemoval stPairV1 "a" "1#2" :=
  ⟨by decide, rfl,
   grace_expiry_removes_session stPairV1 "a" "1#2"
     (V1.Session.mk (some 1) (some "1#2") none true) (by decide) rfl⟩

theorem executeMatch_none_none (st : V1.ServerState) (sid1 sid2 : String)
    (h1 : V1.getSocketFromSession st sid1 = none)
    (h2 : V1.getSocketFromSession st sid2 = none) :
    V1.executeMatch st sid1 sid2 = st := by
  unfold V1.executeMatch; rw [h1, h2]

theorem executeMatch_some_none (st : V1.ServerState) (sid1 sid2 : String)
    (k1 : V1.Socket) (h1 : V1.getSocketFromSession st sid1 = some k1)
    (h2 : V1.getSocketFromSession st sid2 = none) :
    V1.executeMatch st sid1 sid2 =
      { st with waitingQueue := V1.unlockFirst st.waitingQueue sid1 } := by
  unfold V1.executeMatch; rw [h1, h2]

theorem executeMatch_none_some (st : V1.ServerState) (sid1 sid2 : String)
    (k2 : V1.Socket) (h1 : V1.getSocketFromSession st sid1 = none)
    (h2 : V1.getSocketFromSession st sid2 = some k2) :
    V1.executeMatch st sid1 sid2 =
      { st with waitingQueue := V1.unlockFirst st.waitingQueue sid2 } := by
  unfold V1.executeMatch; rw [h1, h2]

/-- What an aborted pairing leaves behind: nothing emitted, rooms, session
store, sockets and timers untouched, the pool's session ids unchanged, the
only possible entry change being the clearing of one of the two sides'
lock flags, and every side that still has a live socket and a pool entry
ending with its lock flag cleared (eligible again). -/
def abortOutcome (st : V1.ServerState) (sid1 sid2 : String) : Prop :=
  (V1.executeMatch st sid1 sid2).emitted = st.emitted ∧
  (V1.executeMatch st sid1 sid2).rooms = st.rooms ∧
  (V1.executeMatch st sid1 sid2).sessionMap = st.sessionMap ∧
  (V1.executeMatch st sid1 sid2).sockets = st.sockets ∧
  (V1.executeMatch st sid1 sid2).timers = st.timers ∧
  V1.queueSessions (V1.executeMatch st sid1 sid2).waitingQueue =
    V1.queueSessions st.waitingQueue ∧
  (∀ u ∈ (V1.executeMatch st sid1 sid2).waitingQueue,
     u ∈ st.waitingQueue ∨
     ∃ v, v ∈ st.waitingQueue ∧ (v.sessionID = sid1 ∨ v.sessionID = sid2) ∧
       u = { v with isMatched := false }) ∧
  (V1.getSocketFromSession st sid1 ≠ none →
     (∃ u, u ∈ st.waitingQueue ∧ u.sessionID = sid1) →
     ∃ u, u ∈ (V1.executeMatch st sid1 sid2).waitingQueue ∧
       u.sessionID = sid1 ∧ u.isMatched = false) ∧
  (V1.getSocketFromSession st sid2 ≠ none →
     (∃ u, u ∈ st.waitingQueue ∧ u.sessionID = sid2) →
     ∃ u, u ∈ (V1.executeMatch st sid1 sid2).waitingQueue ∧
       u.sessionID = sid2 ∧ u.isMatched = false)

/-- Claim C8: when either side of a pairing has no resolvable live socket,
`executeMatch` aborts atomically: no room is created or changed, no session
state is changed, nothing is emitted, and the still-connected side's pool
entry is unlocked so it stays eligible for future scans. -/
theorem executeMatch_aborts_and_unlocks_survivor (st : V1.ServerState)
    (sid1 sid2 : String)
    (hdead : V1.getSocketFromSession st sid1 = none ∨
             V1.getSocketFromSession st sid2 = none) :
    abortOutcome st sid1 sid2 := by
  rcases hdead with hd | hd
  · cases h2 : V1.getSocketFromSession st sid2 with
    | none =>
      have he := executeMatch_none_none st sid1 sid2 hd h2
      refine ⟨by rw [he], by rw [he], by rw [he], by rw [he], by rw [he],
        by rw [he], ?_, ?_, ?_⟩
      · intro u hu; rw [he] at hu; exact Or.inl hu
      · intro hne _; exact absurd hd hne
      · intro hne _; exact absurd h2 hne
    | some k2 =>
      have he := executeMatch_none_some st sid1 sid2 k2 hd h2
      refine ⟨by rw [he], by rw [he], by rw [he], by rw [he], by rw [he], ?_, ?_, ?_, ?_⟩
      · rw [he]; exact V1.queueSessions_unlockFirst _ _
      · intro u hu
        rw [he] at hu
        rcases updateFirst_mem _ _ hu with h | ⟨v, hv, hpv, rfl⟩
        · exact Or.inl h
        · exact Or.inr ⟨v, hv, Or.inr (by simpa using hpv), rfl⟩
      · intro hne _; exact absurd hd hne
      · intro _ hex
        rw [he]
        exact unlock_exists _ _ hex
  · cases h1 : V1.getSocketFromSession st sid1 with
    | none =>
      have he := executeMatch_none_none st sid1 sid2 h1 hd
      refine ⟨by rw [he], by rw [he], by rw [he], by rw [he], by rw [he],
        by rw [he], ?_, ?_, ?_⟩
      · intro u hu; rw [he] at hu; exact Or.inl hu
      · intro hne _; exact absurd h1 hne
      · intro hne _; exact absurd hd hne
    | some k1 =>
      have he := executeMatch_some_none st sid1 sid2 k1 h1 hd
      refine ⟨by rw [he], by rw [he], by rw [he], by rw [he], by rw [he], ?_, ?_, ?_, ?_⟩
      · rw [he]; exact V1.queueSessions_unlockFirst _ _
      · intro u hu
        rw [he] at hu
        rcases updateFirst_mem _ _ hu with h | ⟨v, hv, hpv, rfl⟩
        · exact Or.inl h
        · exact Or.inr ⟨v, hv, Or.inl (by simpa using hpv), rfl⟩
      · intro _ hex
        rw [he]
        exact unlock_exists _ _ hex
      · intro hne _; exact absurd hd hne

/-- Witness state for C8: session `"a"` is connected and locked in the
pool; session `"b"` has no session entry at all (its socket is gone). -/
def stHalf : V1.ServerState :=
  V1.ServerState.mk
    [Entry.mk "a" 1 (UserData.mk "A" "X") false true 0]
    [("a", V1.Session.mk (some 1) none none false)]
    [V1.Socket.mk 1 "a" (some (UserData.mk "A" "X")) none]
    [] [] 0 []

/-- Witness for the claim-C8 theorem at the concrete half-dead state. -/
theorem executeMatch_aborts_and_unlocks_survivor_witness :
    (V1.getSocketFromSession stHalf "a" = none ∨
      V1.getSocketFromSession stHalf "b" = none) ∧
    abortOutcome stHalf "a" "b" :=
  ⟨Or.inr (by decide),
   executeMatch_aborts_and_unlocks_survivor stHalf "a" "b" (Or.inr (by decide))⟩

/-! ### Support for C2 (deferred first scan) -/

namespace Eager

@[simp] theorem setSession_waitingQueueE (st : ServerState) (sid : String) (f) :
    (setSession st sid f).waitingQueue = st.waitingQueue := rfl

@[simp] theorem setSession_timersE (st : ServerState) (sid : String) (f) :
    (setSession st sid f).timers = st.timers := rfl

@[simp] theorem setSession_nowE (st : ServerState) (sid : String) (f) :
    (setSession st sid f).now = st.now := rfl

@[simp] theorem setSession_emittedE (st : ServerState) (sid : String) (f) :
    (setSession st sid f).emitted = st.emitted := rfl

@[simp] theorem setSocket_waitingQueueE (st : ServerState) (k : Nat) (f) :
    (setSocket st k f).waitingQueue = st.waitingQueue := rfl

@[simp] theorem setSocket_timersE (st : ServerState) (k : Nat) (f) :
    (setSocket st k f).timers = st.timers := rfl

@[simp] theorem setSocket_nowE (st : ServerState) (k : Nat) (f) :
    (setSocket st k f).now = st.now := rfl

@[simp] theorem setSocket_emittedE (st : ServerState) (k : Nat) (f) :
    (setSocket st k f).emitted = st.emitted := rfl

end Eager

/-- The `find_partner` behaviour both revisions share at submission time,
together with what distinguishes them.  In `src/server.js` the handler
emits nothing, sets no lock flag (every locked entry after the call was
already in the queue before it), and schedules exactly one timer — the
phase-1 scan — at `now + PHASE_1_DELAY` with `PHASE_1_DELAY = 3000`.  In
the `src/unnamed/part_000` revision the handler still emits nothing
synchronously and schedules exactly one timer at `now + AD_DELAY_MS` with
`AD_DELAY_MS = 3000` — so the `matched` emission is still deferred by the
3-second delay — but it may select and lock a candidate synchronously. -/
def findPartnerDeferred : Prop :=
  (∀ (st : V1.ServerState) (sockId : Nat) (sessionID : String) (userData : UserData),
     (V1.findPartner st sockId sessionID userData).emitted = st.emitted ∧
     (∀ u ∈ (V1.findPartner st sockId sessionID userData).waitingQueue,
        u.isMatched = true → u ∈ st.waitingQueue) ∧
     (V1.findPartner st sockId sessionID userData).timers =
       st.timers ++ [V1.Timer.mk (st.now + V1.PHASE_1_DELAY)
         (V1.TimerKind.phase1 sessionID userData.field)] ∧
     V1.PHASE_1_DELAY = 3000) ∧
  (∀ (st : Eager.ServerState) (sockId : Nat) (sessionID : String) (userData : UserData),
     (Eager.findPartner st sockId sessionID userData).emitted = st.emitted ∧
     (∃ t : Eager.Timer,
        (Eager.findPartner st sockId sessionID userData).timers = st.timers ++ [t] ∧
        t.fireAt = st.now + Eager.AD_DELAY_MS) ∧
     Eager.AD_DELAY_MS = 3000)

theorem findPartner_parts (st : V1.ServerState) (sockId : Nat) (sessionID : String)
    (userData : UserData) :
    (V1.findPartner st sockId sessionID userData).emitted = st.emitted ∧
    (V1.findPartner st sockId sessionID userData).timers =
      st.timers ++ [V1.Timer.mk (st.now + V1.PHASE_1_DELAY)
        (V1.TimerKind.phase1 sessionID userData.field)] ∧
    (V1.findPartner st sockId sessionID userData).waitingQueue =
      V1.removeFromQueue st.waitingQueue sessionID ++
        [Entry.mk sessionID sockId userData false false st.now] := by
  unfold V1.findPartner
  dsimp only
  split
  next s hls =>
    split
    next r hr => exact ⟨by simp, by simp, by simp⟩
    next hr => exact ⟨by simp, by simp, by simp⟩
  next hls => exact ⟨by simp, by simp, by simp⟩

/-- A waiting candidate `"b"` with field `"X"` and a connected session
`"a"` about to search for `"X"` in the eager revision. -/
def stEager : Eager.ServerState :=
  Eager.ServerState.mk
    [Entry.mk "b" 2 (UserData.mk "B" "X") false false 0]
    [("a", V1.Session.mk (some 1) none none false),
     ("b", V1.Session.mk (some 2) none none false)]
    [V1.Socket.mk 1 "a" none none, V1.Socket.mk 2 "b" none none]
    [] 0 []

/-- Claim C2 counterexample: in the `src/unnamed/part_000` revision of
`find_partner` (one of the claim's cited code places), submitting a search
with field `"X"` while an exact-field candidate `"b"` is already waiting
selects and locks the candidate synchronously at submission time: both
entries carry `isMatched = true` before any timer has fired and before
anything is emitted.  This falsifies the claim that no matching attempt is
made synchronously and that the first scan happens only after the phase-1
delay. -/
theorem eager_findPartner_locks_at_submission :
    ((Eager.findPartner stEager 1 "a" (UserData.mk "A" "X")).waitingQueue.find?
        (fun u => u.sessionID == "b")).map Entry.isMatched = some true ∧
    ((Eager.findPartner stEager 1 "a" (UserData.mk "A" "X")).waitingQueue.find?
        (fun u => u.sessionID == "a")).map Entry.isMatched = some true ∧
    (Eager.findPartner stEager 1 "a" (UserData.mk "A" "X")).emitted = [] := by
  decide

/-- Claim C2 (amended): the first possible `matched` emission for a new
search is always deferred by the 3-second delay — in `src/server.js`
nothing is emitted, no lock is set and the only scheduled work is the
phase-1 scan at `now + 3000`; in the `src/unnamed/part_000` revision the
handler may lock a priority candidate synchronously, but still emits
nothing and defers its only scheduled callback by the same 3000 ms. -/
theorem findPartner_defers_first_scan : findPartnerDeferred := by
  constructor
  · intro st sockId sessionID userData
    obtain ⟨he, ht, hq⟩ := findPartner_parts st sockId sessionID userData
    refine ⟨he, ?_, ht, rfl⟩
    intro u hu hm
    rw [hq] at hu
    rcases List.mem_append.mp hu with h | h
    · exact List.mem_of_mem_filter h
    · have : u = Entry.mk sessionID sockId userData false false st.now := by
        simpa using h
      rw [this] at hm
      simp at hm
  · intro st sockId sessionID userData
    unfold Eager.findPartner
    dsimp only
    split
    next j c hE =>
      split
      next s hls =>
        exact ⟨by simp,
          ⟨Eager.Timer.mk (st.now + Eager.AD_DELAY_MS)
            (Eager.TimerKind.delayedMatch sockId c.socketRef), by simp, rfl⟩, rfl⟩
      next hls =>
        exact ⟨by simp,
          ⟨Eager.Timer.mk (st.now + Eager.AD_DELAY_MS)
            (Eager.TimerKind.delayedMatch sockId c.socketRef), by simp, rfl⟩, rfl⟩
    next hE =>
      split
      next s hls =>
        exact ⟨by simp,
          ⟨Eager.Timer.mk (st.now + Eager.AD_DELAY_MS)
            (Eager.TimerKind.anyScan sessionID sockId userData.field), by simp, rfl⟩, rfl⟩
      next hls =>
        exact ⟨by simp,
          ⟨Eager.Timer.mk (st.now + Eager.AD_DELAY_MS)
            (Eager.TimerKind.anyScan sessionID sockId userData.field), by simp, rfl⟩, rfl⟩

/-! ### Support lemmas for the buffered revision (C5, C9) -/

namespace Buffered

@[simp] theorem setSession_waitingQueueB (st : ServerState) (sid : String) (f) :
    (setSession st sid f).waitingQueue = st.waitingQueue := rfl

@[simp] theorem setSession_socketsB (st : ServerState) (sid : String) (f) :
    (setSession st sid f).sockets = st.sockets := rfl

@[simp] theorem setSession_roomsB (st : ServerState) (sid : String) (f) :
    (setSession st sid f).rooms = st.rooms := rfl

@[simp] theorem setSession_emittedB (st : ServerState) (sid : String) (f) :
    (setSession st sid f).emitted = st.emitted := rfl

@[simp] theorem setSocket_waitingQueueB (st : ServerState) (k : Nat) (f) :
    (setSocket st k f).waitingQueue = st.waitingQueue := rfl

@[simp] theorem setSocket_sessionMapB (st : ServerState) (k : Nat) (f) :
    (setSocket st k f).sessionMap = st.sessionMap := rfl

@[simp] theorem setSocket_roomsB (st : ServerState) (k : Nat) (f) :
    (setSocket st k f).rooms = st.rooms := rfl

@[simp] theorem setSocket_emittedB (st : ServerState) (k : Nat) (f) :
    (setSocket st k f).emitted = st.emitted := rfl

@[simp] theorem joinRoom_waitingQueueB (st : ServerState) (k : Nat) (r : String) :
    (joinRoom st k r).waitingQueue = st.waitingQueue := by
  unfold joinRoom; split <;> rfl

@[simp] theorem joinRoom_sessionMapB (st : ServerState) (k : Nat) (r : String) :
    (joinRoom st k r).sessionMap = st.sessionMap := by
  unfold joinRoom; split <;> rfl

@[simp] theorem joinRoom_socketsB (st : ServerState) (k : Nat) (r : String) :
    (joinRoom st k r).sockets = st.sockets := by
  unfold joinRoom; split <;> rfl

@[simp] theorem joinRoom_emittedB (st : ServerState) (k : Nat) (r : String) :
    (joinRoom st k r).emitted = st.emitted := by
  unfold joinRoom; split <;> rfl

@[simp] theorem dropRoom_sessionMapB (st : ServerState) (r : String) :
    (dropRoom st r).sessionMap = st.sessionMap := rfl

theorem lookupSession_setSessionB (st : ServerState) (sid k : String) (f) :
    lookupSession (setSession st sid f) k =
      if k = sid then (lookupSession st k).map f else lookupSession st k := by
  unfold lookupSession setSession
  rw [find?_fst_map (fun p => if p.1 == sid then (p.1, f p.2) else p)
      (by intro p; by_cases h : p.1 = sid <;> simp [h]) k]
  cases hfind : st.sessionMap.find? (fun p => p.1 == k) with
  | none => simp
  | some pr =>
    have hpk := List.find?_some hfind
    have hprk : pr.1 = k := by simpa using hpk
    by_cases hk : k = sid
    · simp [hk, hprk]
    · simp [hk, hprk]

theorem lookupSession_set_socketsB (st : ServerState) (ks : List Socket) (sid : String) :
    lookupSession { st with sockets := ks } sid = lookupSession st sid := rfl

end Buffered

/-! ### The C9 claims (room symmetry) -/

/-- Sessions `"a"` and `"b"` waiting with live sockets, before the pairing
that `stBufPair` performs. -/
def stBufBase : Buffered.ServerState :=
  Buffered.ServerState.mk
    [Entry.mk "a" 1 (UserData.mk "A" "X") false true 0,
     Entry.mk "b" 2 (UserData.mk "B" "X") false true 0]
    [("a", Buffered.Session.mk (some 1) none none false none []),
     ("b", Buffered.Session.mk (some 2) none none false none [])]
    [Buffered.Socket.mk 1 "a" (some (UserData.mk "A" "X")) none true,
     Buffered.Socket.mk 2 "b" (some (UserData.mk "B" "X")) none true]
    [] []

/-- The state after pairing `"a"` and `"b"` through the buffered revision's
`executeMatch`. -/
def stBufPair : Buffered.ServerState := Buffered.executeMatch stBufBase "a" "b"

/-- Claim C9 counterexample: pair `"a"` with `"b"`, then let `"a"` leave via
`disconnect_partner`.  Afterwards `"a"`'s session records no room, while
`"b"`'s session still records the room and `"a"` as its partner — the two
sessions of the (former) room do not reference each other symmetrically,
so the claimed invariant fails after a leave-partner operation. -/
theorem disconnectPartner_breaks_room_symmetry :
    ((Buffered.lookupSession (Buffered.disconnectPartner stBufPair 1 "a") "a").map
        Buffered.Session.roomID) = some none ∧
    ((Buffered.lookupSession (Buffered.disconnectPartner stBufPair 1 "a") "b").map
        Buffered.Session.roomID) = some (some "1#2") ∧
    ((Buffered.lookupSession (Buffered.disconnectPartner stBufPair 1 "a") "b").map
        Buffered.Session.partnerSessionID) = some (some "a") := by
  decide

/-- The sessionMap `executeMatch` leaves behind on success: both sessions
point at the fresh room and at each other, with cleared buffers. -/
theorem executeMatch_success_sessionMap (st : Buffered.ServerState)
    (sid1 sid2 : String) (k1 k2 : Buffered.Socket)
    (hk1 : Buffered.getSocketFromSession st sid1 = some k1)
    (hk2 : Buffered.getSocketFromSession st sid2 = some k2) :
    (Buffered.executeMatch st sid1 sid2).sessionMap =
      (Buffered.setSession (Buffered.setSession st sid1
        (fun s => { s with roomID := some (toString k1.id ++ "#" ++ toString k2.id), partnerSessionID := some sid2, messageQueue := [] })) sid2
        (fun s => { s with roomID := some (toString k1.id ++ "#" ++ toString k2.id), partnerSessionID := some sid1, messageQueue := [] })).sessionMap := by
  unfold Buffered.executeMatch
  rw [hk1, hk2]
  simp [Buffered.setSession]

/-- The room-symmetry property that the buffered revision does establish,
and the asymmetry `disconnect_partner` leaves behind: a successful
`executeMatch` makes the two sessions reference the same room and each
other; a `disconnect_partner` by one session changes no other session's
state (in particular the former partner keeps its stale room and partner
references). -/
def pairSymmetryAfterMatch : Prop :=
  (∀ (st : Buffered.ServerState) (sid1 sid2 : String) (s1 s2 : Buffered.Session)
     (k1 k2 : Buffered.Socket),
     Buffered.lookupSession st sid1 = some s1 →
     Buffered.lookupSession st sid2 = some s2 →
     sid1 ≠ sid2 →
     Buffered.getSocketFromSession st sid1 = some k1 →
     Buffered.getSocketFromSession st sid2 = some k2 →
     ∃ r, Buffered.lookupSession (Buffered.executeMatch st sid1 sid2) sid1 =
            some { s1 with roomID := some r, partnerSessionID := some sid2, messageQueue := [] } ∧
          Buffered.lookupSession (Buffered.executeMatch st sid1 sid2) sid2 =
            some { s2 with roomID := some r, partnerSessionID := some sid1, messageQueue := [] }) ∧
  (∀ (st : Buffered.ServerState) (sockId : Nat) (sid other : String), other ≠ sid →
     Buffered.lookupSession (Buffered.disconnectPartner st sockId sid) other =
       Buffered.lookupSession st other)

/-- Claim C9 (amended): after `executeMatch` the two paired sessions
reference each other symmetrically — same room id, mutual partner links,
cleared buffers — but `disconnect_partner` clears only the initiating
session's references, leaving every other session (the former partner
included) unchanged. -/
theorem room_symmetry_after_executeMatch : pairSymmetryAfterMatch := by
  constructor
  · intro st sid1 sid2 s1 s2 k1 k2 h1 h2 hne hk1 hk2
    refine ⟨toString k1.id ++ "#" ++ toString k2.id, ?_, ?_⟩
    · have hcongr : Buffered.lookupSession (Buffered.executeMatch st sid1 sid2) sid1 =
          Buffered.lookupSession (Buffered.setSession (Buffered.setSession st sid1
            (fun s => { s with roomID := some (toString k1.id ++ "#" ++ toString k2.id), partnerSessionID := some sid2, messageQueue := [] })) sid2
            (fun s => { s with roomID := some (toString k1.id ++ "#" ++ toString k2.id), partnerSessionID := some sid1, messageQueue := [] })) sid1 := by
        unfold Buffered.lookupSession
        rw [executeMatch_success_sessionMap st sid1 sid2 k1 k2 hk1 hk2]
      rw [hcongr, Buffered.lookupSession_setSessionB, if_neg hne,
        Buffered.lookupSession_setSessionB, if_pos rfl, h1]
      rfl
    · have hcongr : Buffered.lookupSession (Buffered.executeMatch st sid1 sid2) sid2 =
          Buffered.lookupSession (Buffered.setSession (Buffered.setSession st sid1
            (fun s => { s with roomID := some (toString k1.id ++ "#" ++ toString k2.id), partnerSessionID := some sid2, messageQueue := [] })) sid2
            (fun s => { s with roomID := some (toString k1.id ++ "#" ++ toString k2.id), partnerSessionID := some sid1, messageQueue := [] })) sid2 := by
        unfold Buffered.lookupSession
        rw [executeMatch_success_sessionMap st sid1 sid2 k1 k2 hk1 hk2]
      rw [hcongr, Buffered.lookupSession_setSessionB, if_pos rfl,
        Buffered.lookupSession_setSessionB, if_neg (fun h => hne h.symm), h2]
      rfl
  · intro st sockId sid other ho
    cases hls : Buffered.lookupSession st sid with
    | none =>
      unfold Buffered.disconnectPartner
      rw [hls]
      rfl
    | some s =>
      cases hr : s.roomID with
      | none =>
        unfold Buffered.disconnectPartner
        rw [hls]
        simp only [hr]
        rfl
      | some r =>
        have hsm : (Buffered.disconnectPartner st sockId sid).sessionMap =
            (Buffered.setSession st sid (fun s => { s with roomID := none, partnerSessionID := none, messageQueue := [] })).sessionMap := by
          unfold Buffered.disconnectPartner
          rw [hls]
          simp [hr, Buffered.setSession]
        have hcongr : Buffered.lookupSession (Buffered.disconnectPartner st sockId sid) other =
            Buffered.lookupSession (Buffered.setSession st sid (fun s => { s with roomID := none, partnerSessionID := none, messageQueue := [] })) other := by
          unfold Buffered.lookupSession
          rw [hsm]
        rw [hcongr, Buffered.lookupSession_setSessionB, if_neg ho]

/-! ### Support for C5 (buffered round trip) -/

theorem lookupSession_joinRoomB (st : Buffered.ServerState) (k : Nat) (r sid : String) :
    Buffered.lookupSession (Buffered.joinRoom st k r) sid =
      Buffered.lookupSession st sid := by
  unfold Buffered.lookupSession
  rw [Buffered.joinRoom_sessionMapB]

theorem sessionOnline_congr (st st' : Buffered.ServerState)
    (s s' : Buffered.Session)
    (hks : st'.sockets = st.sockets) (hid : s'.socketId = s.socketId) :
    Buffered.sessionOnline st' (some s') = Buffered.sessionOnline st (some s) := by
  unfold Buffered.sessionOnline
  dsimp only
  rw [hid, hks]

/-- When the partner is offline, `send_message` reduces to appending the
payload to the partner's buffer, and nothing else. -/
theorem sendMessage_buffers (st : Buffered.ServerState) (sockA : Nat)
    (sidA sidB : String) (sA sB : Buffered.Session) (rA : String) (m : Buffered.MsgIn)
    (hA : Buffered.lookupSession st sidA = some sA)
    (hroom : sA.roomID = some rA)
    (hp : sA.partnerSessionID = some sidB)
    (hB : Buffered.lookupSession st sidB = some sB)
    (hoff : Buffered.sessionOnline st (some sB) = false) :
    Buffered.sendMessage st sockA sidA m =
      Buffered.setSession st sidB (fun ps =>
        { ps with messageQueue := ps.messageQueue ++ [Buffered.payloadOf m] }) := by
  unfold Buffered.sendMessage
  rw [hA]
  simp [hroom, hp, hB, hoff]

/-- What a run of offline sends leaves behind: only the partner's buffer
grows, by the payloads in send order. -/
def sendAllPost (st st' : Buffered.ServerState) (sidB : String)
    (sB : Buffered.Session) (payloads : List Buffered.Msg) : Prop :=
  Buffered.lookupSession st' sidB =
      some { sB with messageQueue := sB.messageQueue ++ payloads } ∧
  (∀ x, x ≠ sidB → Buffered.lookupSession st' x = Buffered.lookupSession st x) ∧
  st'.sockets = st.sockets ∧ st'.emitted = st.emitted ∧
  st'.rooms = st.rooms ∧ st'.waitingQueue = st.waitingQueue

theorem sendAll_offline (sockA : Nat) (sidA sidB : String) (sA : Buffered.Session)
    (rA : String) (hroom : sA.roomID = some rA)
    (hp : sA.partnerSessionID = some sidB) (hAB : sidA ≠ sidB) :
    ∀ (ms : List Buffered.MsgIn) (st : Buffered.ServerState) (sB : Buffered.Session),
      Buffered.lookupSession st sidA = some sA →
      Buffered.lookupSession st sidB = some sB →
      Buffered.sessionOnline st (some sB) = false →
      sendAllPost st (Buffered.sendAll st sockA sidA ms) sidB sB
        (ms.map Buffered.payloadOf) := by
  intro ms
  induction ms with
  | nil =>
    intro st sB hA hB hoff
    refine ⟨?_, fun x _ => rfl, rfl, rfl, rfl, rfl⟩
    show Buffered.lookupSession st sidB =
      some { sB with messageQueue := sB.messageQueue ++ [] }
    rw [List.append_nil]
    exact hB
  | cons m ms ih =>
    intro st sB hA hB hoff
    have hstep := sendMessage_buffers st sockA sidA sidB sA sB rA m hA hroom hp hB hoff
    have h1 : Buffered.sendAll st sockA sidA (m :: ms) =
        Buffered.sendAll (Buffered.sendMessage st sockA sidA m) sockA sidA ms := rfl
    have hA1 : Buffered.lookupSession (Buffered.sendMessage st sockA sidA m) sidA =
        some sA := by
      rw [hstep, Buffered.lookupSession_setSessionB, if_neg hAB]
      exact hA
    have hB1 : Buffered.lookupSession (Buffered.sendMessage st sockA sidA m) sidB =
        some { sB with messageQueue := sB.messageQueue ++ [Buffered.payloadOf m] } := by
      rw [hstep, Buffered.lookupSession_setSessionB, if_pos rfl, hB]
      rfl
    have hsock1 : (Buffered.sendMessage st sockA sidA m).sockets = st.sockets := by
      rw [hstep]; rfl
    have hoff1 : Buffered.sessionOnline (Buffered.sendMessage st sockA sidA m)
        (some { sB with messageQueue := sB.messageQueue ++ [Buffered.payloadOf m] }) = false := by
      rw [sessionOnline_congr st (Buffered.sendMessage st sockA sidA m)
        sB { sB with messageQueue := sB.messageQueue ++ [Buffered.payloadOf m] }
        hsock1 rfl]
      exact hoff
    obtain ⟨k1, k2, k3, k4, k5, k6⟩ := ih (Buffered.sendMessage st sockA sidA m) _ hA1 hB1 hoff1
    rw [h1]
    refine ⟨?_, ?_, ?_, ?_, ?_, ?_⟩
    · rw [k1]
      simp
    · intro x hx
      rw [k2 x hx, hstep, Buffered.lookupSession_setSessionB, if_neg hx]
    · rw [k3, hsock1]
    · rw [k4, hstep]; rfl
    · rw [k5, hstep]; rfl
    · rw [k6, hstep]; rfl

theorem lookupSession_setSocketB (st : Buffered.ServerState) (k : Nat) (f)
    (sid : String) :
    Buffered.lookupSession (Buffered.setSocket st k f) sid =
      Buffered.lookupSession st sid := rfl

theorem lookupSession_set_emittedB (st : Buffered.ServerState)
    (evs : List Buffered.Event) (sid : String) :
    Buffered.lookupSession { st with emitted := evs } sid =
      Buffered.lookupSession st sid := rfl

/-- Proof scaffold: the reconnect path of the buffered connection handler
for a session known to sit in room `rB`, up to (but not including) the
buffer flush. -/
def rejoinStage (st : Buffered.ServerState) (newSock : Nat) (sidB rB : String)
    (sB : Buffered.Session) : Buffered.ServerState :=
  let st2 : Buffered.ServerState :=
    { st with sockets := st.sockets ++ [Buffered.Socket.mk newSock sidB none none true] }
  let st3 := Buffered.setSession st2 sidB (fun s => { s with socketId := some newSock })
  let st4 := Buffered.setSocket st3 newSock (fun k => { k with userData := sB.userData, roomID := some rB })
  let st5 := if sB.timer then
      Buffered.setSession st4 sidB (fun s => { s with timer := false })
    else st4
  let st6 := Buffered.joinRoom st5 newSock rB
  { st6 with emitted := st6.emitted ++ [Buffered.Event.partnerConnected rB newSock, Buffered.Event.sessionRestored newSock] }

/-- Proof scaffold: the full reconnect path of the buffered connection
handler for a session in room `rB`, including the buffer flush. -/
def flushStage (st : Buffered.ServerState) (newSock : Nat) (sidB rB : String)
    (sB : Buffered.Session) : Buffered.ServerState :=
  let st7 := rejoinStage st newSock sidB rB sB
  let queue := match Buffered.lookupSession st7 sidB with
    | some s2 => s2.messageQueue
    | none => []
  if queue.isEmpty then st7
  else
    let st8 := { st7 with emitted := st7.emitted ++ queue.map (fun msg => Buffered.Event.receiveDirect newSock msg) }
    Buffered.setSession st8 sidB (fun s => { s with messageQueue := [] })

theorem connectHandler_room_eq (st : Buffered.ServerState) (newSock : Nat)
    (sidB rB : String) (sB : Buffered.Session)
    (hB : Buffered.lookupSession st sidB = some sB)
    (hroom : sB.roomID = some rB) :
    Buffered.connectHandler st newSock sidB = flushStage st newSock sidB rB sB := by
  unfold Buffered.connectHandler flushStage rejoinStage
  simp only [Buffered.lookupSession_set_socketsB, hB]
  simp only [hroom]

theorem rejoinStage_emitted (st : Buffered.ServerState) (newSock : Nat)
    (sidB rB : String) (sB : Buffered.Session) :
    (rejoinStage st newSock sidB rB sB).emitted =
      st.emitted ++ [Buffered.Event.partnerConnected rB newSock,
                     Buffered.Event.sessionRestored newSock] := by
  unfold rejoinStage
  by_cases ht : sB.timer = true <;> simp [ht]

theorem rejoinStage_lookup (st : Buffered.ServerState) (newSock : Nat)
    (sidB rB : String) (sB : Buffered.Session)
    (hB : Buffered.lookupSession st sidB = some sB) :
    ∃ s2, Buffered.lookupSession (rejoinStage st newSock sidB rB sB) sidB = some s2 ∧
      s2.messageQueue = sB.messageQueue := by
  unfold rejoinStage
  dsimp only
  by_cases ht : sB.timer = true
  · rw [if_pos ht]
    refine ⟨{ sB with socketId := some newSock, timer := false }, ?_, rfl⟩
    rw [lookupSession_set_emittedB, lookupSession_joinRoomB,
        Buffered.lookupSession_setSessionB, if_pos rfl,
        lookupSession_setSocketB,
        Buffered.lookupSession_setSessionB, if_pos rfl,
        Buffered.lookupSession_set_socketsB, hB]
    rfl
  · rw [if_neg ht]
    refine ⟨{ sB with socketId := some newSock }, ?_, rfl⟩
    rw [lookupSession_set_emittedB, lookupSession_joinRoomB,
        lookupSession_setSocketB,
        Buffered.lookupSession_setSessionB, if_pos rfl,
        Buffered.lookupSession_set_socketsB, hB]
    rfl

theorem flushStage_spec (st : Buffered.ServerState) (newSock : Nat)
    (sidB rB : String) (sB : Buffered.Session)
    (hB : Buffered.lookupSession st sidB = some sB) :
    (flushStage st newSock sidB rB sB).emitted =
      st.emitted ++ [Buffered.Event.partnerConnected rB newSock,
                     Buffered.Event.sessionRestored newSock] ++
      sB.messageQueue.map (fun msg => Buffered.Event.receiveDirect newSock msg) ∧
    (∃ s2, Buffered.lookupSession (flushStage st newSock sidB rB sB) sidB =
        some s2 ∧ s2.messageQueue = []) := by
  obtain ⟨smid, hmid, hmq⟩ := rejoinStage_lookup st newSock sidB rB sB hB
  have hem := rejoinStage_emitted st newSock sidB rB sB
  dsimp only [flushStage]
  rw [hmid]
  by_cases hq : smid.messageQueue.isEmpty = true
  · have hqnil : smid.messageQueue = [] := by simpa using hq
    rw [if_pos hq]
    refine ⟨?_, smid, hmid, hqnil⟩
    rw [hem, ← hmq, hqnil]
    simp
  · rw [if_neg hq]
    constructor
    · rw [Buffered.setSession_emittedB]
      show (rejoinStage st newSock sidB rB sB).emitted ++
          smid.messageQueue.map (fun msg => Buffered.Event.receiveDirect newSock msg) =
        st.emitted ++ [Buffered.Event.partnerConnected rB newSock,
          Buffered.Event.sessionRestored newSock] ++
        sB.messageQueue.map (fun msg => Buffered.Event.receiveDirect newSock msg)
      rw [hem, hmq]
    · refine ⟨{ smid with messageQueue := [] }, ?_, rfl⟩
      rw [Buffered.lookupSession_setSessionB, if_pos rfl, lookupSession_set_emittedB, hmid]
      rfl

/-- The round-trip property of the buffered revision: every message sent
while the partner is offline lands in the partner's buffer in send order;
the partner's reconnect emits the whole buffer to the fresh socket via
`receive_message`, in order and exactly once, and the buffer is empty
afterwards. -/
def bufferedRoundTrip (st : Buffered.ServerState) (sockA newSock : Nat)
    (sidA sidB rB : String) (sB : Buffered.Session)
    (ms : List Buffered.MsgIn) : Prop :=
  Buffered.lookupSession (Buffered.sendAll st sockA sidA ms) sidB =
      some { sB with messageQueue := sB.messageQueue ++ ms.map Buffered.payloadOf } ∧
  (Buffered.connectHandler (Buffered.sendAll st sockA sidA ms) newSock sidB).emitted =
      st.emitted ++ [Buffered.Event.partnerConnected rB newSock,
                     Buffered.Event.sessionRestored newSock] ++
      (sB.messageQueue ++ ms.map Buffered.payloadOf).map
        (fun msg => Buffered.Event.receiveDirect newSock msg) ∧
  (∃ s2, Buffered.lookupSession
      (Buffered.connectHandler (Buffered.sendAll st sockA sidA ms) newSock sidB) sidB =
      some s2 ∧ s2.messageQueue = [])

/-- Claim C5 (amended): in the `src/unnamed/part_002` revision, messages
sent to a disconnected partner are buffered, never dropped, and are
delivered on reconnect in the original order, exactly once, after which
the buffer is empty.  The claim's other cited revision, `src/server.js`,
has no pending-message buffer at all: its `send_message` emits into the
room the offline partner's socket has already left and its reconnect path
flushes nothing, so there the message is silently lost. -/
theorem buffered_messages_round_trip (st : Buffered.ServerState)
    (sockA newSock : Nat) (sidA sidB rA rB : String)
    (sA sB : Buffered.Session) (ms : List Buffered.MsgIn)
    (hA : Buffered.lookupSession st sidA = some sA)
    (hArm : sA.roomID = some rA)
    (hp : sA.partnerSessionID = some sidB)
    (hAB : sidA ≠ sidB)
    (hB : Buffered.lookupSession st sidB = some sB)
    (hBrm : sB.roomID = some rB)
    (hoff : Buffered.sessionOnline st (some sB) = false) :
    bufferedRoundTrip st sockA newSock sidA sidB rB sB ms := by
  obtain ⟨k1, k2, k3, k4, k5, k6⟩ :=
    sendAll_offline sockA sidA sidB sA rA hArm hp hAB ms st sB hA hB hoff
  have hB1room : ({ sB with messageQueue :=
      sB.messageQueue ++ ms.map Buffered.payloadOf } : Buffered.Session).roomID =
      some rB := hBrm
  have hre := connectHandler_room_eq (Buffered.sendAll st sockA sidA ms) newSock sidB rB
    _ k1 hB1room
  have hfl := flushStage_spec (Buffered.sendAll st sockA sidA ms) newSock sidB rB _ k1
  refine ⟨k1, ?_, ?_⟩
  · rw [hre, hfl.1, k4]
  · rw [hre]
    exact hfl.2

/-- Witness state for C5: `"a"` is connected in room `"1#2"`; its partner
`"b"` is disconnected mid-grace (no live socket, grace timer pending) with
an empty buffer. -/
def stBufGrace : Buffered.ServerState :=
  Buffered.ServerState.mk
    []
    [("a", Buffered.Session.mk (some 1) (some "1#2") none false (some "b") []),
     ("b", Buffered.Session.mk (some 2) (some "1#2") none true (some "a") [])]
    [Buffered.Socket.mk 1 "a" (some (UserData.mk "A" "X")) (some "1#2") true]
    [("1#2", [1])]
    []

/-- Witness for the claim-C5 theorem: one message sent while `"b"` is
offline, then `"b"` reconnects on socket `3`. -/
theorem buffered_messages_round_trip_witness :
    (Buffered.lookupSession stBufGrace "a" =
        some (Buffered.Session.mk (some 1) (some "1#2") none false (some "b") []) ∧
      (Buffered.Session.mk (some 1) (some "1#2") none false (some "b")
        ([] : List Buffered.Msg)).roomID = some "1#2" ∧
      (Buffered.Session.mk (some 1) (some "1#2") none false (some "b")
        ([] : List Buffered.Msg)).partnerSessionID = some "b" ∧
      ("a" : String) ≠ "b" ∧
      Buffered.lookupSession stBufGrace "b" =
        some (Buffered.Session.mk (some 2) (some "1#2") none true (some "a") []) ∧
      (Buffered.Session.mk (some 2) (some "1#2") none true (some "a")
        ([] : List Buffered.Msg)).roomID = some "1#2" ∧
      Buffered.sessionOnline stBufGrace
        (some (Buffered.Session.mk (some 2) (some "1#2") none true (some "a") [])) =
        false) ∧
    bufferedRoundTrip stBufGrace 1 3 "a" "b" "1#2"
      (Buffered.Session.mk (some 2) (some "1#2") none true (some "a") [])
      [Buffered.MsgIn.mk "hello" none 5] :=
  ⟨⟨by decide, rfl, rfl, by decide, by decide, rfl, by decide⟩,
   buffered_messages_round_trip stBufGrace 1 3 "a" "b" "1#2" "1#2"
     (Buffered.Session.mk (some 1) (some "1#2") none false (some "b") [])
     (Buffered.Session.mk (some 2) (some "1#2") none true (some "a") [])
     [Buffered.MsgIn.mk "hello" none 5]
     (by decide) rfl rfl (by decide) (by decide) rfl (by decide)⟩

/-- Witness for the claim-C9 amended theorem at the concrete pre-pairing
state. -/
theorem room_symmetry_after_executeMatch_witness :
    Buffered.lookupSession stBufBase "a" =
      some (Buffered.Session.mk (some 1) none none false none []) ∧
    Buffered.lookupSession stBufBase "b" =
      some (Buffered.Session.mk (some 2) none none false none []) ∧
    ("a" : String) ≠ "b" ∧
    Buffered.getSocketFromSession stBufBase "a" =
      some (Buffered.Socket.mk 1 "a" (some (UserData.mk "A" "X")) none true) ∧
    Buffered.getSocketFromSession stBufBase "b" =
      some (Buffered.Socket.mk 2 "b" (some (UserData.mk "B" "X")) none true) ∧
    pairSymmetryAfterMatch :=
  ⟨by decide, by decide, by decide, by decide, by decide,
   room_symmetry_after_executeMatch⟩

/-! ### The C5 counterexample: `src/server.js` has no message buffer -/

namespace V1

/-- The sockets a `socket.to(roomID).emit(...)` actually delivers to: the
room's members at emission time, minus the sending socket. -/
def deliveredTo (st : ServerState) (roomID : String) (exceptSocket : Nat) : List Nat :=
  (roomMembers st roomID).filter (fun m => m != exceptSocket)

end V1

/-- A live sender with a mid-grace partner in `src/server.js`: `"a"` is
connected on socket `1` in room `"1#2"`; its partner `"b"` still has a
session (room `"1#2"`, pending grace timeout) but socket `2` is gone and
has left the room. -/
def stDropV1 : V1.ServerState :=
  V1.ServerState.mk
    []
    [("a", V1.Session.mk (some 1) (some "1#2") (some (UserData.mk "A" "X")) false),
     ("b", V1.Session.mk (some 2) (some "1#2") (some (UserData.mk "B" "X")) true)]
    [V1.Socket.mk 1 "a" (some (UserData.mk "A" "X")) (some "1#2")]
    [("1#2", [1])]
    [V1.Timer.mk 180000 (V1.TimerKind.grace "b")]
    0
    []

/-- Claim C5 counterexample: the claim cites the `send_message` handler of
`src/server.js` (lines 270-284), which has no pending-message buffer.  At
the concrete state above, `"a"` sends `"hello"` while partner `"b"` is
mid-grace: the handler emits a single room-targeted `receive_message`
whose delivery set — room members minus the sender — is empty, and it
stores the payload nowhere (the session map is unchanged, and this
revision's sessions have no buffer field to store it in).  When `"b"`
then reconnects on socket `3`, the connect handler emits only
`partner_connected` and the session-restore event — no `receive_message`
flush exists in this revision.  The message is silently lost, falsifying
the claim for this cited revision. -/
theorem v1_send_message_drops_offline :
    (V1.sendMessage stDropV1 1 "a" "hello").emitted =
      [V1.Event.receiveMessage "1#2" 1 "hello"] ∧
    V1.deliveredTo (V1.sendMessage stDropV1 1 "a" "hello") "1#2" 1 = [] ∧
    (V1.sendMessage stDropV1 1 "a" "hello").sessionMap = stDropV1.sessionMap ∧
    (V1.connectHandler (V1.sendMessage stDropV1 1 "a" "hello") 3 "b").emitted =
      [V1.Event.receiveMessage "1#2" 1 "hello",
       V1.Event.partnerConnected "1#2" 3, V1.Event.sessionRestored 3] := by
  decide

/-! ### The C6 counterexample: `src/unnamed/part_007` has no stale guard -/

namespace P7

/-- A `sessionMap` value in `src/unnamed/part_007` (line 154 and the
reconnection update at line 129): `{ socketId, roomID, userData, timer }`,
where `socketId` always holds the most recent connection's id. -/
structure Session where
  socketId : Nat
  roomID : Option String
  userData : Option UserData
  timer : Bool
deriving Repr, DecidableEq

/-- A `waitingQueue` entry as `src/unnamed/part_007` pushes it
(lines 207-212): `{ sessionID, socket, userData, joinedAt }`, the socket
reference kept as the socket id. -/
structure QEntry where
  sessionID : String
  socketRef : Nat
  userData : UserData
  joinedAt : Nat
deriving Repr, DecidableEq

/-- The emission the `part_007` disconnect handler makes into the room. -/
inductive Event where
  | partnerReconnecting (roomID : String) (exceptSocket : Nat)
deriving Repr, DecidableEq

/-- A pending grace timeout: when it fires and whose `cleanupSession` it
will run. -/
structure Timer where
  fireAt : Nat
  sessionID : String
deriving Repr, DecidableEq

/-- The `src/unnamed/part_007` state the disconnect handler touches. -/
structure ServerState where
  waitingQueue : List QEntry
  sessionMap : List (String × Session)
  timers : List Timer
  now : Nat
  emitted : List Event
deriving Repr, DecidableEq

/-- `RECONNECT_GRACE_PERIOD = 60 * 1000` (`src/unnamed/part_007` line 19). -/
def RECONNECT_GRACE_PERIOD : Nat := 60 * 1000

/-- `sessionMap.get(sessionID)`. -/
def lookupSession (st : ServerState) (sessionID : String) : Option Session :=
  (st.sessionMap.find? (fun p => p.1 == sessionID)).map (·.2)

/-- Mutation of the `sessionMap` entry for `sessionID` (JS object aliasing). -/
def setSession (st : ServerState) (sessionID : String) (f : Session → Session) :
    ServerState :=
  { st with sessionMap :=
      st.sessionMap.map (fun p => if p.1 == sessionID then (p.1, f p.2) else p) }

/-- The socket `disconnect` handler of `src/unnamed/part_007`
(lines 241-265), invoked with the dropping socket's id and its
`socket.sessionID`.  The handler never compares `session.socketId` with
the disconnecting socket's id: whenever the session exists it filters the
session out of the waiting queue, and then either emits
`partner_reconnecting_server` and stores a fresh grace timer (session in
a room) or deletes the session outright (no room). -/
def disconnectHandler (st : ServerState) (sockId : Nat) (sessionID : String) :
    ServerState :=
  match lookupSession st sessionID with
  | none => st
  | some session =>
    let st := { st with waitingQueue :=
      st.waitingQueue.filter (fun u => u.sessionID != sessionID) }
    match session.roomID with
    | some roomID =>
      let st := { st with emitted :=
        st.emitted ++ [Event.partnerReconnecting roomID sockId] }
      let t := Timer.mk (st.now + RECONNECT_GRACE_PERIOD) sessionID
      let st := { st with timers := st.timers ++ [t] }
      setSession st sessionID (fun s => { s with timer := true })
    | none => { st with sessionMap := st.sessionMap.filter (fun p => p.1 != sessionID) }

end P7

/-- A freshly reconnected paired session in `src/unnamed/part_007`:
`"a"` is in room `"1#2"` and already rebound to its new socket `2` when
the old socket `1`'s disconnect event arrives. -/
def stP7Room : P7.ServerState :=
  P7.ServerState.mk [] [("a", P7.Session.mk 2 (some "1#2") none false)] [] 0 []

/-- A freshly reconnected queued session in `src/unnamed/part_007`:
`"a"` has no room, waits in the queue, and is already rebound to its new
socket `2` when the old socket `1`'s disconnect event arrives. -/
def stP7Queue : P7.ServerState :=
  P7.ServerState.mk
    [P7.QEntry.mk "a" 2 (UserData.mk "A" "X") 0]
    [("a", P7.Session.mk 2 none (some (UserData.mk "A" "X")) false)]
    [] 0 []

/-- Claim C6 counterexample: the claim cites the disconnect handler of
`src/unnamed/part_007` (lines 241-265), which has no stale-socket
comparison.  In both concrete states the session has already reconnected
(its stored socket id is `2`, the disconnecting socket is `1`), yet the
handler is not a no-op: for the paired session it starts a grace timer
and stores the handle on the live session; for the queued session it
removes the fresh queue entry and deletes the live session outright.
This falsifies the claim for this cited revision. -/
theorem p7_stale_disconnect_mutates :
    ((P7.lookupSession stP7Room "a").map P7.Session.socketId = some 2 ∧
      (2 : Nat) ≠ 1 ∧
      (P7.disconnectHandler stP7Room 1 "a").timers =
        [P7.Timer.mk P7.RECONNECT_GRACE_PERIOD "a"] ∧
      (P7.lookupSession (P7.disconnectHandler stP7Room 1 "a") "a").map
        P7.Session.timer = some true) ∧
    ((P7.lookupSession stP7Queue "a").map P7.Session.socketId = some 2 ∧
      (P7.disconnectHandler stP7Queue 1 "a").waitingQueue = [] ∧
      P7.lookupSession (P7.disconnectHandler stP7Queue 1 "a") "a" = none) := by
  decide

end ChatItNow
